import Mathlib

/-!
# Poseidon server framework: verification of the core

A shallow embedding of parts of the Poseidon sources

* `src/main/singletons/system_http_server.cpp` (CSV escaping, servlet dispatch),
* `src/cbpp/client.cpp` and `src/cbpp/session.cpp` (jobs, keep alive, control messages),
* `src/main/singletons/module_manager.cpp` (module registry),

together with theorems about them.  A C `char` is a `Char`, a `std::string` or a
NUL-terminated buffer is a `List Char`, unsigned 64-bit integers are `Nat` with explicit
reduction modulo `2 ^ 64`, and code that may throw returns the thrown value explicitly.
-/

namespace Poseidon

/-! ## `system_http_server.cpp`: `escapeCsvField` -/

/-- The terminating byte of a C string. -/
def NUL : Char := Char.ofNat 0

/-- The double quote character. -/
def DQUOTE : Char := Char.ofNat 34

/-- The comma character. -/
def COMMA : Char := Char.ofNat 44

/-- Carriage return. -/
def CR : Char := Char.ofNat 13

/-- Line feed. -/
def LF : Char := Char.ofNat 10

/-- The call `dst.clear()` of `std::string`. -/
def clear (_dst : List Char) : List Char := []

/-- The `for(;;)` loop of `escapeCsvField`: `read` is the memory from the read pointer on,
`dst` the destination so far.  The loop stops at the first NUL.  The `switch` falls through
from the double-quote case (which first pushes one extra quote) into the cases that set
`needsQuotes`; the character itself is pushed after the `switch`.  Running off the buffer
without meeting a NUL has no defined behaviour and yields `none`. -/
def escapeLoop : List Char → List Char → Bool → Option (List Char × Bool)
  | [], _, _ => none
  | ch :: read, dst, needsQuotes =>
    if ch = NUL then some (dst, needsQuotes)
    else
      let dst1 := if ch = DQUOTE then dst ++ [DQUOTE] else dst
      let needsQuotes1 :=
        if ch = DQUOTE ∨ ch = COMMA ∨ ch = CR ∨ ch = LF then true else needsQuotes
      escapeLoop read (dst1 ++ [ch]) needsQuotes1

/-- The function `escapeCsvField(dst, src)`: `dst` is the previous content of the destination
string, `src` the memory `src.get()` points to.  The result is the new content of `dst`. -/
def escapeCsvField (dst : List Char) (src : List Char) : Option (List Char) :=
  match escapeLoop src (clear dst) false with
  | none => none
  | some (out, needsQuotes) =>
    if needsQuotes then some (DQUOTE :: out ++ [DQUOTE]) else some out

/-- A field needs quoting when it holds a double quote, a comma, CR or LF. -/
def isCsvSpecial (ch : Char) : Bool :=
  ch = DQUOTE ∨ ch = COMMA ∨ ch = CR ∨ ch = LF

/-- Every double quote of `s` doubled, the other characters unchanged. -/
def doubleQuotes (s : List Char) : List Char :=
  s.flatMap fun ch => if ch = DQUOTE then [DQUOTE, DQUOTE] else [ch]

/-! ## `cbpp/session.cpp` and `cbpp/client.cpp`: connections and jobs -/

/-- What a `throw` can carry, as the `catch` clauses of the jobs tell it apart:
`TryAgainLater`, a `Cbpp::Exception` with its status code and `what()`, another
`std::exception` with its `what()`, and a value that is no `std::exception` at all (only
`catch(...)` takes it). -/
inductive Thrown where
  | tryAgainLater
  | cbppException (statusCode : Int) (what : String)
  | stdException (what : String)
  | other (tag : Nat)
  deriving DecidableEq, Repr

/-- The calls a job makes on its connection, in the order they are made. -/
inductive Effect where
  | sendError (messageId : Nat) (statusCode : Int) (reason : String)
  | sendControl (controlCode : Nat) (intParam : Int) (strParam : String)
  | shutdownRead
  | shutdownWrite
  | forceShutdown
  | setTimeout (timeout : Nat)
  deriving DecidableEq, Repr

/-- A server side CBPP session: the shutdown flags and the idle timeout of the underlying
TCP session, and the calls made on it so far (oldest first). -/
structure Session where
  readShut : Bool
  writeShut : Bool
  forceShut : Bool
  timeout : Nat
  trace : List Effect
  deriving DecidableEq, Repr

/-- Modelled from the spec: `TcpSessionBase::shutdownRead` is not among the sources; it
sets the read-shut flag. -/
def Session.shutdownRead (s : Session) : Session :=
  { s with readShut := true, trace := s.trace ++ [Effect.shutdownRead] }

/-- Modelled from the spec: `TcpSessionBase::shutdownWrite` is not among the sources; it
sets the write-shut flag. -/
def Session.shutdownWrite (s : Session) : Session :=
  { s with writeShut := true, trace := s.trace ++ [Effect.shutdownWrite] }

/-- Modelled from the spec: `TcpSessionBase::forceShutdown` is not among the sources; it
tears the connection down in both directions at once. -/
def Session.forceShutdown (s : Session) : Session :=
  { s with readShut := true, writeShut := true, forceShut := true,
           trace := s.trace ++ [Effect.forceShutdown] }

/-- Modelled from the spec: `TcpSessionBase::setTimeout` is not among the sources; it
resets the idle timeout. -/
def Session.setTimeout (s : Session) (timeout : Nat) : Session :=
  { s with timeout := timeout, trace := s.trace ++ [Effect.setTimeout timeout] }

/-- Modelled from the spec: `LowLevelSession::sendError` is not among the sources; it
hands an error reply for `messageId` to the writer. -/
def Session.sendError (s : Session) (messageId : Nat) (statusCode : Int) (reason : String) :
    Session :=
  { s with trace := s.trace ++ [Effect.sendError messageId statusCode reason] }

/-- Modelled from the spec: `send(ControlMessage(code, intParam, strParam))` hands one
control message to the writer. -/
def Session.sendControl (s : Session) (controlCode : Nat) (intParam : Int) (strParam : String) :
    Session :=
  { s with trace := s.trace ++ [Effect.sendControl controlCode intParam strParam] }

/-- The control code `CTL_HEARTBEAT` of `control_codes.hpp`. -/
def CTL_HEARTBEAT : Nat := 0

/-- The method `Session::onControl`: a `switch` on the control code. -/
def Session.onControl (s : Session) (controlCode : Nat) (intParam : Int) (strParam : String) :
    Session :=
  if controlCode = CTL_HEARTBEAT then s
  else ((s.sendControl controlCode intParam strParam).shutdownRead).shutdownWrite

/-- The wrapper `SessionJobBase::perform()`: `m_session` is what `m_session.lock()` finds
(`none` when the session is gone), `body` the virtual `perform(session)` of the job.  The
result is the session afterwards and what is thrown out of the job, if anything. -/
def SessionJobBase.perform (body : Session → Session × Option Thrown)
    (m_session : Option Session) : Option Session × Option Thrown :=
  match m_session with
  | none => (none, none)
  | some session =>
    match body session with
    | (s1, none) => (some s1, none)
    | (s1, some Thrown.tryAgainLater) => (some s1, some Thrown.tryAgainLater)
    | (s1, some (Thrown.cbppException c w)) =>
      (some s1.forceShutdown, some (Thrown.cbppException c w))
    | (s1, some (Thrown.stdException w)) => (some s1.forceShutdown, some (Thrown.stdException w))
    | (s1, some (Thrown.other t)) => (some s1.forceShutdown, some (Thrown.other t))

/-- The body `Session::RequestJob::perform(session)`.  `config` is the value of
`cbpp_keep_alive_timeout` in the configuration file, if set; `ST_INTERNAL_ERROR` the status
code of that name (its header is not among the sources); `onRequest` the user callback, which
returns the session as it left it and what it threw, if anything. -/
def RequestJob.perform (config : Option Nat) (ST_INTERNAL_ERROR : Int)
    (onRequest : Nat → List Nat → Session → Session × Option Thrown)
    (m_messageId : Nat) (m_payload : List Nat) (session : Session) : Session × Option Thrown :=
  match onRequest m_messageId m_payload session with
  | (s1, none) => (s1.setTimeout (config.getD 30000), none)
  | (s1, some Thrown.tryAgainLater) => (s1, some Thrown.tryAgainLater)
  | (s1, some (Thrown.cbppException statusCode what)) =>
    (((s1.sendError m_messageId statusCode what).shutdownRead).shutdownWrite, none)
  | (s1, some (Thrown.stdException what)) =>
    (((s1.sendError m_messageId ST_INTERNAL_ERROR what).shutdownRead).shutdownWrite, none)
  | (s1, some (Thrown.other t)) => (s1, some (Thrown.other t))

/-- A CBPP client: the keep alive interval, the time of the last pong, the shutdown flags of
the underlying TCP client and the calls made on it so far (oldest first). -/
structure Client where
  m_keepAliveInterval : Nat
  m_lastPongTime : Nat
  readShut : Bool
  writeShut : Bool
  forceShut : Bool
  trace : List Effect
  deriving DecidableEq, Repr

/-- The constructor `Client::Client`: `m_lastPongTime` starts as `(boost::uint64_t)-1`. -/
def Client.new (keepAliveInterval : Nat) : Client :=
  { m_keepAliveInterval := keepAliveInterval, m_lastPongTime := 2 ^ 64 - 1,
    readShut := false, writeShut := false, forceShut := false, trace := [] }

/-- Modelled from the spec: `TcpSessionBase::forceShutdown` is not among the sources; it
tears the connection down in both directions at once. -/
def Client.forceShutdown (c : Client) : Client :=
  { c with readShut := true, writeShut := true, forceShut := true,
           trace := c.trace ++ [Effect.forceShutdown] }

/-- The method `Client::sendControl`: one control message handed to the writer. -/
def Client.sendControl (c : Client) (controlCode : Nat) (vintParam : Int)
    (stringParam : String) : Client :=
  { c with trace := c.trace ++ [Effect.sendControl controlCode vintParam stringParam] }

/-- The wrapper `Client::SyncJobBase::perform()`, as `SessionJobBase.perform`. -/
def SyncJobBase.perform (body : Client → Client × Option Thrown)
    (m_client : Option Client) : Option Client × Option Thrown :=
  match m_client with
  | none => (none, none)
  | some client =>
    match body client with
    | (c1, none) => (some c1, none)
    | (c1, some Thrown.tryAgainLater) => (some c1, some Thrown.tryAgainLater)
    | (c1, some (Thrown.cbppException s w)) =>
      (some c1.forceShutdown, some (Thrown.cbppException s w))
    | (c1, some (Thrown.stdException w)) => (some c1.forceShutdown, some (Thrown.stdException w))
    | (c1, some (Thrown.other t)) => (some c1.forceShutdown, some (Thrown.other t))

/-- The timer callback `Client::keepAliveTimerProc(weakClient, now, period)`.  `CTL_PING` is
the control code of that name (not in the `control_codes.hpp` at hand), `getUtcTime` the
reading of the wall clock.  `now - period * 2` is computed in `boost::uint64_t`, that is
modulo `2 ^ 64`.  The result is `none` when the client is gone. -/
def keepAliveTimerProc (CTL_PING : Nat) (getUtcTime : Nat) (weakClient : Option Client)
    (now period : Nat) : Option Client :=
  match weakClient with
  | none => none
  | some client =>
    if client.m_lastPongTime < (now + 2 ^ 64 - (period * 2) % 2 ^ 64) % 2 ^ 64 then
      some client.forceShutdown
    else
      some (client.sendControl CTL_PING 0 (Nat.repr getUtcTime))

/-! ## `system_http_server.cpp`: `servletProc` -/

/-- The seven request handlers the jump table points to. -/
inductive Handler where
  | onConnections
  | onLoadModule
  | onModules
  | onProfile
  | onSetLogMask
  | onShutdown
  | onUnloadModule
  deriving DecidableEq, Repr

/-- The array `JUMP_TABLE`, in the order of the source. -/
def JUMP_TABLE : List (List Char × Handler) :=
  [ ("connections".toList, Handler.onConnections),
    ("load_module".toList, Handler.onLoadModule),
    ("modules".toList, Handler.onModules),
    ("profile".toList, Handler.onProfile),
    ("set_log_mask".toList, Handler.onSetLogMask),
    ("shutdown".toList, Handler.onShutdown),
    ("unload_module".toList, Handler.onUnloadModule) ]

/-- The C library function `strcmp` on two character buffers.  The end of a list stands for
the NUL that ends the buffer, and a NUL inside a list ends the string there as well.
Characters are compared as unsigned values; the result is their difference at the first
position where the strings differ. -/
def strcmp : List Char → List Char → Int
  | [], [] => 0
  | [], b :: _ => (NUL.toNat : Int) - b.toNat
  | a :: _, [] => (a.toNat : Int) - NUL.toNat
  | a :: as, b :: bs =>
    if a ≠ b then (a.toNat : Int) - b.toNat
    else if a = NUL then 0
    else strcmp as bs

/-- The `do ... while(lower != upper)` loop of `servletProc`, with `lower` and `upper` as
indices into `JUMP_TABLE` and `key` the buffer at `request.uri.c_str() + cut`.  The result
is `found` (`none` for the null pointer).  The outer `none` stands for a run that is not
over after `fuel` rounds or that reads outside the table. -/
def searchLoop (key : List Char) : Nat → Nat → Nat → Option (Option Handler)
  | 0, _, _ => none
  | fuel + 1, lower, upper =>
    let middle := lower + (upper - lower) / 2
    match JUMP_TABLE[middle]? with
    | none => none
    | some (first, second) =>
      let result := strcmp key first
      if result = 0 then some (some second)
      else if result < 0 then
        (if lower ≠ middle then searchLoop key fuel lower middle else some none)
      else
        (if middle + 1 ≠ upper then searchLoop key fuel (middle + 1) upper else some none)

/-- Modelled from the spec: the HTTP status code `HTTP_METHOD_NOT_ALLOWED`, whose header is
not among the sources, is 405. -/
def HTTP_METHOD_NOT_ALLOWED : Nat := 405

/-- Modelled from the spec: the HTTP status code `HTTP_NOT_FOUND`, whose header is not among
the sources, is 404. -/
def HTTP_NOT_FOUND : Nat := 404

/-- How `servletProc` ends: with an `HttpException` of a status code, or in the call of a
handler. -/
inductive ServletResult where
  | httpException (statusCode : Nat)
  | called (handler : Handler)
  deriving DecidableEq, Repr

/-- The function `servletProc(session, request, cut)`, where `verb` and `uri` are the fields
of the request and `HTTP_GET` the verb of that name (its header is not among the sources).
The search runs with one round of fuel per table entry. -/
def servletProc (HTTP_GET : Nat) (verb : Nat) (uri : List Char) (cut : Nat) :
    Option ServletResult :=
  if verb ≠ HTTP_GET then some (ServletResult.httpException HTTP_METHOD_NOT_ALLOWED)
  else if uri.length < cut then some (ServletResult.httpException HTTP_NOT_FOUND)
  else
    match searchLoop (uri.drop cut) JUMP_TABLE.length 0 JUMP_TABLE.length with
    | none => none
    | some none => some (ServletResult.httpException HTTP_NOT_FOUND)
    | some (some found) => some (ServletResult.called found)

/-- The C string a buffer holds: its characters up to the first NUL. -/
def cstr (buffer : List Char) : List Char :=
  buffer.takeWhile fun ch => ch ≠ NUL

/-! ## `module_manager.cpp`: the module registry -/

/-- A `Module` record.  `ptr` is the identity of the record (what `shared_ptr` and
`weak_ptr` compare), the other three are its constant members. -/
structure Module where
  ptr : Nat
  m_handle : Nat
  m_realPath : String
  m_baseAddr : Nat
  deriving DecidableEq, Repr

/-- An element of the registry: the strong reference `module` and the contexts.  The
members `handle`, `realPath` and `baseAddr` are constants that the only constructor copies
from the module, so they are functions of `module` here. -/
structure ModuleMapElement where
  module : Module
  contexts : List Nat
  deriving DecidableEq, Repr

/-- The member `handle` of a registry element. -/
def ModuleMapElement.handle (e : ModuleMapElement) : Nat := e.module.m_handle

/-- The member `realPath` of a registry element. -/
def ModuleMapElement.realPath (e : ModuleMapElement) : String := e.module.m_realPath

/-- The member `baseAddr` of a registry element. -/
def ModuleMapElement.baseAddr (e : ModuleMapElement) : Nat := e.module.m_baseAddr

/-- Modelled from the spec: the `MULTI_INDEX_MAP` header is not among the sources.  An
insertion is refused when the record, the handle or the base address of the new element is
already the key of an element; the real path is not a unique key. -/
def ModuleMap.insert (g : List ModuleMapElement) (e : ModuleMapElement) :
    Option (List ModuleMapElement) :=
  if g.any (fun x => x.module.ptr = e.module.ptr ∨ x.handle = e.handle ∨
      x.baseAddr = e.baseAddr) then none
  else some (g ++ [e])

/-- Modelled from the spec: `find<IDX_HANDLE>` of the multi-index map, the element with
that handle if there is one. -/
def ModuleMap.findHandle (g : List ModuleMapElement) (handle : Nat) : Option ModuleMapElement :=
  g.find? fun x => x.handle = handle

/-- Modelled from the spec: `erase<IDX>(key)` of the multi-index map removes every element
whose key (given by `hasKey`) matches; the result is what is left and what was removed. -/
def ModuleMap.erase (g : List ModuleMapElement) (hasKey : ModuleMapElement → Bool) :
    List ModuleMapElement × List ModuleMapElement :=
  (g.filter fun x => ¬ hasKey x, g.filter hasKey)

/-- The globals of `module_manager.cpp` and what else decides how it behaves: the registry
`g_modules`; the map `g_modulesbyAddr` from base address to (the identity of) a weakly
referenced record; `holders`, one entry for every `shared_ptr<Module>` held outside the
registry; the identity the next record gets; and the records `poseidonModuleInit` has been
called with. -/
structure ModuleManager where
  g_modules : List ModuleMapElement
  g_modulesbyAddr : List (Nat × Nat)
  holders : List Module
  nextPtr : Nat
  initCalls : List Module
  deriving DecidableEq, Repr

/-- The state before anything is loaded. -/
def ModuleManager.empty : ModuleManager :=
  { g_modules := [], g_modulesbyAddr := [], holders := [], nextPtr := 0, initCalls := [] }

/-- A record is alive while a strong reference to it exists, in the registry or outside;
`weak_ptr::lock()` succeeds exactly then. -/
def ModuleManager.alive (s : ModuleManager) (m : Module) : Bool :=
  s.g_modules.any (fun x => x.module.ptr = m.ptr) || s.holders.any (fun x => x.ptr = m.ptr)

/-- The value of `use_count()` for a record. -/
def ModuleManager.useCount (s : ModuleManager) (m : Module) : Nat :=
  (s.g_modules.filter fun x => x.module.ptr = m.ptr).length +
    (s.holders.filter fun x => x.ptr = m.ptr).length

/-- The destructor `Module::~Module`: `g_modulesbyAddr.erase(m_baseAddr)`. -/
def ModuleManager.destroy (s : ModuleManager) (m : Module) : ModuleManager :=
  { s with g_modulesbyAddr := s.g_modulesbyAddr.filter fun kv => kv.1 ≠ m.m_baseAddr }

/-- After a strong reference to `m` was dropped: the destructor runs if none is left. -/
def ModuleManager.dropped (s : ModuleManager) (m : Module) : ModuleManager :=
  if s.alive m then s else s.destroy m

/-- The holder of one `shared_ptr<Module>` outside the registry lets it go. -/
def ModuleManager.release (s : ModuleManager) (m : Module) : ModuleManager :=
  match s.holders.find? fun x => x.ptr = m.ptr with
  | none => s
  | some held =>
    ({ s with holders := s.holders.eraseP fun x => x.ptr = m.ptr }).dropped held

/-- What the dynamic linker and the library answer during one call of `load`:
`dlopenNoLoad` is `dlopen` with `RTLD_NOLOAD`, `dlopen` the one with `RTLD_DEEPBIND` (`none`
for a null handle), `dlsym` the address of `poseidonModuleInit` in a library, `dladdr` the
real path and base address for that address, and `init` the call of `poseidonModuleInit`,
which yields the contexts or throws (`none`). -/
structure DlEnv where
  dlopenNoLoad : String → Option Nat
  dlopen : String → Option Nat
  dlsym : Nat → Option Nat
  dladdr : Nat → Option (String × Nat)
  init : Module → Option (List Nat)

/-- The function `ModuleManager::load(path)`: the module returned or the message of the
exception thrown, and the state afterwards.  A module that was constructed and is not
returned is destroyed on the way out. -/
def ModuleManager.load (env : DlEnv) (path : String) (s : ModuleManager) :
    Except String Module × ModuleManager :=
  match (env.dlopenNoLoad path).bind (ModuleMap.findHandle s.g_modules) with
  | some it => (Except.ok it.module, { s with holders := it.module :: s.holders })
  | none =>
    match env.dlopen path with
    | none => (Except.error "Error loading dynamic library", s)
    | some handle =>
      match env.dlsym handle with
      | none => (Except.error "Error locating poseidonModuleInit()", s)
      | some initSym =>
        match env.dladdr initSym with
        | none => (Except.error "Error getting real path", s)
        | some (realPath, baseAddr) =>
          let module : Module :=
            { ptr := s.nextPtr, m_handle := handle, m_realPath := realPath,
              m_baseAddr := baseAddr }
          let s1 := { s with nextPtr := s.nextPtr + 1, initCalls := s.initCalls ++ [module] }
          match env.init module with
          | none => (Except.error "poseidonModuleInit() threw", s1.destroy module)
          | some contexts =>
            match ModuleMap.insert s1.g_modules { module := module, contexts := contexts } with
            | none => (Except.error "Duplicate module", s1.destroy module)
            | some g =>
              (Except.ok module,
                { s1 with
                  g_modules := g
                  g_modulesbyAddr :=
                    (baseAddr, module.ptr) ::
                      s1.g_modulesbyAddr.filter fun kv => kv.1 ≠ baseAddr
                  holders := module :: s1.holders })

/-- The common part of the three `unload` overloads: erase by a key, report whether
anything was erased, and let the references of the erased elements go. -/
def ModuleManager.unloadBy (hasKey : ModuleMapElement → Bool) (s : ModuleManager) :
    Bool × ModuleManager :=
  let r := ModuleMap.erase s.g_modules hasKey
  (decide (r.2.length > 0),
    r.2.foldl (fun acc x => acc.dropped x.module) { s with g_modules := r.1 })

/-- The overload `ModuleManager::unload(const boost::shared_ptr<Module> &)`. -/
def ModuleManager.unloadModule (module : Module) (s : ModuleManager) : Bool × ModuleManager :=
  s.unloadBy fun x => x.module.ptr = module.ptr

/-- The overload `ModuleManager::unload(const SharedNtmbs &realPath)`. -/
def ModuleManager.unloadRealPath (realPath : String) (s : ModuleManager) :
    Bool × ModuleManager :=
  s.unloadBy fun x => x.realPath = realPath

/-- The overload `ModuleManager::unload(void *baseAddr)`. -/
def ModuleManager.unloadBaseAddr (baseAddr : Nat) (s : ModuleManager) : Bool × ModuleManager :=
  s.unloadBy fun x => x.baseAddr = baseAddr

/-- The function `ModuleManager::snapshot()`: real path, base address and use count of
every element of the registry. -/
def ModuleManager.snapshot (s : ModuleManager) : List (String × Nat × Nat) :=
  s.g_modules.map fun it => (it.realPath, it.baseAddr, s.useCount it.module)

/-- The first block of `ModuleManager::stop()`: the weak references to all registered
records, in the order of the registry, and the state once the registry is cleared. -/
def ModuleManager.stopClear (s : ModuleManager) : List Module × ModuleManager :=
  (s.g_modules.map fun it => it.module,
    s.g_modules.foldl (fun acc x => acc.dropped x.module) { s with g_modules := [] })

/-- The waiting loop of `ModuleManager::stop()`.  `modules` is the vector of weak
references; each element of `sleeps` lists the references other threads let go during one
`::sleep(1)`.  When a record is still alive and `sleeps` is used up, nothing changes any
more and the loop never ends: the result is `none`.  Every round shortens `modules` or
`sleeps`, so `fuel` above the sum of their lengths never runs out. -/
def ModuleManager.stopLoop : Nat → List Module → List (List Module) → ModuleManager →
    Option ModuleManager
  | 0, _, _, _ => none
  | fuel + 1, modules, sleeps, s =>
    match modules.getLast? with
    | none => some s
    | some back =>
      if s.alive back then
        match sleeps with
        | [] => none
        | released :: rest =>
          ModuleManager.stopLoop fuel modules rest
            (released.foldl (fun acc m => acc.release m) s)
      else ModuleManager.stopLoop fuel modules.dropLast sleeps s

/-- The function `ModuleManager::stop()`: the state when it returns, `none` when it never
does. -/
def ModuleManager.stop (sleeps : List (List Module)) (s : ModuleManager) :
    Option ModuleManager :=
  ModuleManager.stopLoop (s.stopClear.1.length + sleeps.length + 1) s.stopClear.1 sleeps
    s.stopClear.2

/-- One step of a run of the module manager. -/
inductive Action where
  | load (env : DlEnv) (path : String)
  | unloadModule (module : Module)
  | unloadRealPath (realPath : String)
  | unloadBaseAddr (baseAddr : Nat)
  | stop
  | release (module : Module)

/-- The state after one step.  For `stop` this is the state after its first block; the
waiting loop changes the state only through the releases of other threads, which are steps
of their own. -/
def ModuleManager.step (s : ModuleManager) : Action → ModuleManager
  | Action.load env path => (s.load env path).2
  | Action.unloadModule module => (s.unloadModule module).2
  | Action.unloadRealPath realPath => (s.unloadRealPath realPath).2
  | Action.unloadBaseAddr baseAddr => (s.unloadBaseAddr baseAddr).2
  | Action.stop => s.stopClear.2
  | Action.release module => s.release module

/-- The state after a sequence of steps from the empty registry. -/
def ModuleManager.run (actions : List Action) : ModuleManager :=
  actions.foldl ModuleManager.step ModuleManager.empty

/-- The records that are alive in a state: the registered ones and the ones held outside
the registry. -/
def ModuleManager.liveModules (s : ModuleManager) : List Module :=
  (s.g_modules.map fun it => it.module) ++ s.holders

/-- A linker environment for the examples: the no-load probe answers `probe`; every
library opens with handle 100, has its init function at address 7, real path `/lib/a.so`
and base address 4096; the init function succeeds with no contexts. -/
def exampleEnv (probe : Option Nat) : DlEnv :=
  { dlopenNoLoad := fun _ => probe
    dlopen := fun _ => some 100
    dlsym := fun _ => some 7
    dladdr := fun _ => some ("/lib/a.so", 4096)
    init := fun _ => some [] }

/-! ## `module_manager.cpp`: `assertCurrent` -/

/-- The function `ModuleManager::assertCurrent()`.  `dladdr` is what `::dladdr` finds for
the return address of the caller: `none` when it fails, else the base address of the
caller's image.  The entry of `g_modulesbyAddr` for that address is turned into a strong
reference, which throws when the record is gone.  The result is the record returned or the
message of the exception, and the state afterwards. -/
def ModuleManager.assertCurrent (dladdr : Option Nat) (s : ModuleManager) :
    Except String Module × ModuleManager :=
  match dladdr with
  | none => (Except.error "Error getting base address", s)
  | some baseAddr =>
    match s.g_modulesbyAddr.find? fun kv => kv.1 = baseAddr with
    | none => (Except.error "Module was not loaded via ModuleManager", s)
    | some it =>
      match s.liveModules.find? fun m => m.ptr = it.2 with
      | none => (Except.error "bad_weak_ptr", s)
      | some module => (Except.ok module, { s with holders := module :: s.holders })

/-! ## `job_promise.hpp`: promises -/

/-- The three states of a promise. -/
inductive PromiseState where
  | pending
  | fulfilledOk
  | fulfilledError
  deriving DecidableEq, Repr

/-- The class `JobPromise`: its state and the stored exception `m_except`. -/
structure JobPromise where
  m_state : PromiseState
  m_except : Option Thrown
  deriving DecidableEq, Repr

/-- The constructor `JobPromise::JobPromise()`: a pending promise. -/
def JobPromise.new : JobPromise :=
  { m_state := PromiseState.pending, m_except := none }

/-- Modelled from the spec: `JobPromise::is_satisfied` is only declared in the header; it
observes the final state, fulfilled-ok or fulfilled-error. -/
def JobPromise.is_satisfied (p : JobPromise) : Bool :=
  p.m_state ≠ PromiseState.pending

/-- Modelled from the spec: `JobPromise::check_and_rethrow` is only declared in the header;
in state fulfilled-error it throws the stored error again, otherwise it returns. -/
def JobPromise.check_and_rethrow (p : JobPromise) : Option Thrown :=
  match p.m_state with
  | PromiseState.fulfilledError => some (p.m_except.getD (Thrown.other 0))
  | _ => none

/-- Modelled from the spec: `JobPromise::set_success` is only declared in the header; it
takes a pending promise to fulfilled-ok.  On a satisfied promise it has no effect, or, with
`strict`, fails (the spec allows both). -/
def JobPromise.set_success (strict : Bool) (p : JobPromise) : JobPromise × Option Thrown :=
  match p.m_state with
  | PromiseState.pending => ({ p with m_state := PromiseState.fulfilledOk }, none)
  | _ => (p, if strict then some (Thrown.stdException "already satisfied") else none)

/-- Modelled from the spec: `JobPromise::set_exception` is only declared in the header; it
takes a pending promise to fulfilled-error and stores the error.  On a satisfied promise it
has no effect, or, with `strict`, fails. -/
def JobPromise.set_exception (strict : Bool) (except : Thrown) (p : JobPromise) :
    JobPromise × Option Thrown :=
  match p.m_state with
  | PromiseState.pending =>
    ({ m_state := PromiseState.fulfilledError, m_except := some except }, none)
  | _ => (p, if strict then some (Thrown.stdException "already satisfied") else none)

/-- The class template `JobPromiseContainer<T>`: a `JobPromise` and the value `m_t`. -/
structure JobPromiseContainer (T : Type) where
  toJobPromise : JobPromise
  m_t : T

/-- The constructor `JobPromiseContainer(T t)`. -/
def JobPromiseContainer.new {T : Type} (t : T) : JobPromiseContainer T :=
  { toJobPromise := JobPromise.new, m_t := t }

/-- The method `JobPromiseContainer::get()`: `check_and_rethrow()`, then `m_t`. -/
def JobPromiseContainer.get {T : Type} (c : JobPromiseContainer T) : Except Thrown T :=
  match c.toJobPromise.check_and_rethrow with
  | some e => Except.error e
  | none => Except.ok c.m_t

/-- The method `JobPromiseContainer::set_success(T t)`: first `m_t = t`, then
`JobPromise::set_success()`. -/
def JobPromiseContainer.set_success {T : Type} (strict : Bool) (t : T)
    (c : JobPromiseContainer T) : JobPromiseContainer T × Option Thrown :=
  let c1 := { c with m_t := t }
  let r := c1.toJobPromise.set_success strict
  ({ c1 with toJobPromise := r.1 }, r.2)

/-- The inherited `set_exception` on a `JobPromiseContainer`: the value is not touched. -/
def JobPromiseContainer.set_exception {T : Type} (strict : Bool) (except : Thrown)
    (c : JobPromiseContainer T) : JobPromiseContainer T × Option Thrown :=
  let r := c.toJobPromise.set_exception strict except
  ({ c with toJobPromise := r.1 }, r.2)

/-! ## `cbpp/session.cpp` and `cbpp/client.cpp`: the remaining jobs -/

/-- The body `Session::ControlJob::perform(session)`.  `ControlMessage_ID` is the message
id of control messages (its header is not among the sources), `onControl` the virtual
`Session::onControl`.  Only a `Cbpp::Exception` is caught. -/
def ControlJob.perform (config : Option Nat) (ControlMessage_ID : Nat)
    (onControl : Nat → Int → String → Session → Session × Option Thrown)
    (m_controlCode : Nat) (m_intParam : Int) (m_strParam : String) (session : Session) :
    Session × Option Thrown :=
  match onControl m_controlCode m_intParam m_strParam session with
  | (s1, none) => (s1.setTimeout (config.getD 30000), none)
  | (s1, some (Thrown.cbppException statusCode what)) =>
    (((s1.sendError ControlMessage_ID statusCode what).shutdownRead).shutdownWrite, none)
  | (s1, some Thrown.tryAgainLater) => (s1, some Thrown.tryAgainLater)
  | (s1, some (Thrown.stdException what)) => (s1, some (Thrown.stdException what))
  | (s1, some (Thrown.other t)) => (s1, some (Thrown.other t))

/-- The body `Session::ErrorJob::perform(session)`.  The member `m_guard` of the job acts
when the job is destroyed, not in `perform`. -/
def ErrorJob.perform (m_messageId : Nat) (m_statusCode : Int) (m_reason : String)
    (session : Session) : Session × Option Thrown :=
  (session.sendError m_messageId m_statusCode m_reason, none)

/-- The user callbacks of a session: `onRequest`, and `onControl` (virtual, with
`Session.onControl` as the implementation of the base class). -/
structure SessionCallbacks where
  onRequest : Nat → List Nat → Session → Session × Option Thrown
  onControl : Nat → Int → String → Session → Session × Option Thrown

/-- The three kinds of job a session enqueues, with their members. -/
inductive SessionJob where
  | request (m_messageId : Nat) (m_payload : List Nat)
  | control (m_controlCode : Nat) (m_intParam : Int) (m_strParam : String)
  | error (m_messageId : Nat) (m_statusCode : Int) (m_reason : String)
  deriving DecidableEq, Repr

/-- The call `perform()` of a session job: the wrapper of `SessionJobBase` around the body
of the job. -/
def SessionJob.perform (config : Option Nat) (ST_INTERNAL_ERROR : Int) (ControlMessage_ID : Nat)
    (cb : SessionCallbacks) (job : SessionJob) (m_session : Option Session) :
    Option Session × Option Thrown :=
  match job with
  | SessionJob.request messageId payload =>
    SessionJobBase.perform
      (RequestJob.perform config ST_INTERNAL_ERROR cb.onRequest messageId payload) m_session
  | SessionJob.control controlCode intParam strParam =>
    SessionJobBase.perform
      (ControlJob.perform config ControlMessage_ID cb.onControl controlCode intParam strParam)
      m_session
  | SessionJob.error messageId statusCode reason =>
    SessionJobBase.perform (ErrorJob.perform messageId statusCode reason) m_session

/-- The user callbacks of a client for the parts of a data message. -/
structure ClientCallbacks where
  onSyncDataMessageHeader : Nat → Nat → Client → Client × Option Thrown
  onSyncDataMessagePayload : Nat → List Nat → Client → Client × Option Thrown
  onSyncDataMessageEnd : Nat → Client → Client × Option Thrown

/-- The method `Client::onSyncErrorMessage`: it writes a log line and nothing else. -/
def Client.onSyncErrorMessage (_messageId : Nat) (_statusCode : Int) (_reason : String)
    (client : Client) : Client × Option Thrown :=
  (client, none)

/-- The body `Client::DataMessageHeaderJob::perform(client)`. -/
def DataMessageHeaderJob.perform (cb : ClientCallbacks) (m_messageId m_payloadSize : Nat)
    (client : Client) : Client × Option Thrown :=
  cb.onSyncDataMessageHeader m_messageId m_payloadSize client

/-- The body `Client::DataMessagePayloadJob::perform(client)`. -/
def DataMessagePayloadJob.perform (cb : ClientCallbacks) (m_payloadOffset : Nat)
    (m_payload : List Nat) (client : Client) : Client × Option Thrown :=
  cb.onSyncDataMessagePayload m_payloadOffset m_payload client

/-- The body `Client::DataMessageEndJob::perform(client)`: the callback, and when it
returns, `m_lastPongTime = getFastMonoClock()`. -/
def DataMessageEndJob.perform (cb : ClientCallbacks) (getFastMonoClock : Nat)
    (m_payloadSize : Nat) (client : Client) : Client × Option Thrown :=
  match cb.onSyncDataMessageEnd m_payloadSize client with
  | (c1, none) => ({ c1 with m_lastPongTime := getFastMonoClock }, none)
  | (c1, some e) => (c1, some e)

/-- The body `Client::ErrorMessageJob::perform(client)`. -/
def ErrorMessageJob.perform (m_messageId : Nat) (m_statusCode : Int) (m_reason : String)
    (client : Client) : Client × Option Thrown :=
  client.onSyncErrorMessage m_messageId m_statusCode m_reason

/-- The four kinds of job a client enqueues, with their members. -/
inductive ClientJob where
  | dataMessageHeader (m_messageId m_payloadSize : Nat)
  | dataMessagePayload (m_payloadOffset : Nat) (m_payload : List Nat)
  | dataMessageEnd (m_payloadSize : Nat)
  | errorMessage (m_messageId : Nat) (m_statusCode : Int) (m_reason : String)
  deriving DecidableEq, Repr

/-- The call `perform()` of a client job: the wrapper of `SyncJobBase` around the body of
the job.  `getFastMonoClock` is the reading of the monotonic clock. -/
def ClientJob.perform (cb : ClientCallbacks) (getFastMonoClock : Nat) (job : ClientJob)
    (m_client : Option Client) : Option Client × Option Thrown :=
  match job with
  | ClientJob.dataMessageHeader messageId payloadSize =>
    SyncJobBase.perform (DataMessageHeaderJob.perform cb messageId payloadSize) m_client
  | ClientJob.dataMessagePayload payloadOffset payload =>
    SyncJobBase.perform (DataMessagePayloadJob.perform cb payloadOffset payload) m_client
  | ClientJob.dataMessageEnd payloadSize =>
    SyncJobBase.perform (DataMessageEndJob.perform cb getFastMonoClock payloadSize) m_client
  | ClientJob.errorMessage messageId statusCode reason =>
    SyncJobBase.perform (ErrorMessageJob.perform messageId statusCode reason) m_client

/-- The method `Client::onDataMessageEnd`: the job it enqueues and its return value. -/
def Client.onDataMessageEnd (payloadSize : Nat) : ClientJob × Bool :=
  (ClientJob.dataMessageEnd payloadSize, true)

/-- The method `Client::onControlMessage`: the job it enqueues and its return value.  The
job is an `ErrorMessageJob`, with the control code as its 16-bit message id and the integer
parameter as its status code. -/
def Client.onControlMessage (controlCode : Nat) (vintParam : Int) (stringParam : String) :
    ClientJob × Bool :=
  (ClientJob.errorMessage (controlCode % 2 ^ 16) vintParam stringParam, true)

/-! ## `system_http_server.cpp`: `SystemHttpServer::start` -/

/-- The function `SystemHttpServer::start()`, as far as the servlet goes:
`system_http_path` is the value of that key in the configuration file, if set.  The result
is the path the servlet is registered at and the `cut` bound into `servletProc`. -/
def SystemHttpServer.start (system_http_path : Option (List Char)) : List Char × Nat :=
  let path := system_http_path.getD "~/sys".toList
  let path1 := if path.isEmpty ∨ path.getLast? ≠ some '/' then path ++ ['/'] else path
  (path1, path1.length)

/-- A run for the examples: a library is loaded, its record is unloaded while the caller
keeps the reference, the library is loaded again (the probe finds it still mapped), and
the caller lets the first record go. -/
def reloadRun : List Action :=
  [Action.load (exampleEnv none) "a.so",
   Action.unloadModule ⟨0, 100, "/lib/a.so", 4096⟩,
   Action.load (exampleEnv (some 100)) "a.so",
   Action.release ⟨0, 100, "/lib/a.so", 4096⟩]

/-! ## Theorems -/

theorem escapeLoop_spec (s : List Char) (hs : NUL ∉ s) (dst : List Char) (nq : Bool) :
    escapeLoop (s ++ [NUL]) dst nq = some (dst ++ doubleQuotes s, nq || s.any isCsvSpecial) := by
  induction s generalizing dst nq with
  | nil => simp [escapeLoop, doubleQuotes]
  | cons ch rest ih =>
    have hch : ch ≠ NUL := fun h => hs (by simp [h])
    have hrest : NUL ∉ rest := fun h => hs (by simp [h])
    rw [List.cons_append, escapeLoop, if_neg hch]
    simp only []
    rw [ih hrest]
    by_cases hq : ch = DQUOTE
    · simp [hq, doubleQuotes, isCsvSpecial]
    · by_cases hsp : ch = COMMA ∨ ch = CR ∨ ch = LF
      · have : isCsvSpecial ch = true := by simp [isCsvSpecial, hsp]
        simp [hq, hsp, doubleQuotes, this]
      · have : isCsvSpecial ch = false := by
          simp only [isCsvSpecial, hq, false_or]
          simpa using hsp
        simp [hq, hsp, doubleQuotes, this]

/-- C1: for a NUL-free field `s` (stored NUL-terminated), `escapeCsvField` yields `s` itself
when `s` has no double quote, comma, CR or LF, and otherwise a double quote, `s` with every
double quote doubled, and a closing double quote; the previous content `dst` of the
destination plays no part. -/
theorem escapeCsvField_rfc4180 (dst s : List Char) (hs : NUL ∉ s) :
    escapeCsvField dst (s ++ [NUL]) =
      some (if s.any isCsvSpecial then DQUOTE :: doubleQuotes s ++ [DQUOTE] else s) := by
  unfold escapeCsvField
  simp only [clear, escapeLoop_spec s hs, List.nil_append, Bool.false_or]
  by_cases h : s.any isCsvSpecial = true
  · simp [h]
  · have hno : ∀ ch ∈ s, ch ≠ DQUOTE := by
      intro ch hch hq
      apply h
      exact List.any_eq_true.mpr ⟨ch, hch, by simp [isCsvSpecial, hq]⟩
    have hid : doubleQuotes s = s := by
      clear h hs
      induction s with
      | nil => rfl
      | cons a t ih =>
        have ha : a ≠ DQUOTE := hno a (by simp)
        have ht : ∀ ch ∈ t, ch ≠ DQUOTE := fun ch hch => hno ch (by simp [hch])
        have := ih ht
        simp only [doubleQuotes, List.flatMap_cons, if_neg ha] at this ⊢
        simp [this]
    simp [h, hid]

/-- C1 witness: the field `a"b,` is NUL-free and is escaped to `"a""b,"`, whatever the
destination held before. -/
theorem escapeCsvField_rfc4180_witness :
    NUL ∉ ['a', DQUOTE, 'b', COMMA] ∧
    escapeCsvField ['x'] (['a', DQUOTE, 'b', COMMA] ++ [NUL]) =
      some (if ['a', DQUOTE, 'b', COMMA].any isCsvSpecial
        then DQUOTE :: doubleQuotes ['a', DQUOTE, 'b', COMMA] ++ [DQUOTE]
        else ['a', DQUOTE, 'b', COMMA]) :=
  ⟨by decide, escapeCsvField_rfc4180 ['x'] ['a', DQUOTE, 'b', COMMA] (by decide)⟩

/-! ### Keep alive timer -/

/-- The comparison of `keepAliveTimerProc` agrees with `now - last_pong_time > 2 * period`
over the integers as long as `period * 2 ≤ now`, so that the subtraction does not wrap. -/
theorem keepAliveTimerProc_no_wrap (CTL_PING utc : Nat) (client : Client) (now period : Nat)
    (hnow : now < 2 ^ 64) (hle : period * 2 ≤ now) :
    keepAliveTimerProc CTL_PING utc (some client) now period =
      if (now : Int) - client.m_lastPongTime > 2 * period then some client.forceShutdown
      else some (client.sendControl CTL_PING 0 (Nat.repr utc)) := by
  have h1 : (period * 2) % 2 ^ 64 = period * 2 := Nat.mod_eq_of_lt (by omega)
  have h2 : (now + 2 ^ 64 - period * 2) % 2 ^ 64 = now - period * 2 := by
    have : now + 2 ^ 64 - period * 2 = (now - period * 2) + 2 ^ 64 := by omega
    rw [this, Nat.add_mod_right]
    exact Nat.mod_eq_of_lt (by omega)
  simp only [keepAliveTimerProc, h1, h2]
  by_cases h : client.m_lastPongTime < now - period * 2
  · rw [if_pos h, if_pos (by omega)]
  · rw [if_neg h, if_neg (by omega)]

/-- C2: one tick at `now = 20000` with `period = 15000`, on a client whose last pong is
from `19000` (`now - last_pong_time = 1000`, not above `2 * period = 30000`): the
subtraction `now - period * 2` wraps around, and the tick force-shuts the connection
without any PING. -/
theorem keepAliveTimerProc_wraps (CTL_PING utc : Nat) :
    ¬ ((20000 : Int) - 19000 > 2 * 15000) ∧
    keepAliveTimerProc CTL_PING utc
      (some { m_keepAliveInterval := 15000, m_lastPongTime := 19000, readShut := false,
              writeShut := false, forceShut := false, trace := [] }) 20000 15000 =
      some { m_keepAliveInterval := 15000, m_lastPongTime := 19000, readShut := true,
             writeShut := true, forceShut := true, trace := [Effect.forceShutdown] } := by
  refine ⟨by decide, ?_⟩
  simp only [keepAliveTimerProc, Client.forceShutdown]
  rw [if_pos (by decide)]
  rfl

/-! ### Session jobs -/

/-- C3 (amended): the request job, run through `SessionJobBase::perform` on a live session.
When `onRequest` returns, the timeout is set to the configured value (30000 when not
configured) and nothing else is done.  When it throws a `Cbpp::Exception`, the error
reply with its status and reason is sent, then read and write are shut.  When it throws
another `std::exception`, the reply carries `ST_INTERNAL_ERROR`, then read and write are
shut.  In both cases nothing is thrown on and the timeout is left alone.  When it throws a
value that is no `std::exception`, no reply is sent: the session is force-shut and the value
thrown on. -/
theorem requestJob_perform_cases (config : Option Nat) (ST_INTERNAL_ERROR : Int)
    (onRequest : Nat → List Nat → Session → Session × Option Thrown)
    (messageId : Nat) (payload : List Nat) (session s1 : Session) :
    (onRequest messageId payload session = (s1, none) →
      SessionJobBase.perform
          (RequestJob.perform config ST_INTERNAL_ERROR onRequest messageId payload)
          (some session) = (some (s1.setTimeout (config.getD 30000)), none) ∧
      (s1.setTimeout (config.getD 30000)).timeout = config.getD 30000 ∧
      (s1.setTimeout (config.getD 30000)).trace
        = s1.trace ++ [Effect.setTimeout (config.getD 30000)] ∧
      (s1.setTimeout (config.getD 30000)).readShut = s1.readShut ∧
      (s1.setTimeout (config.getD 30000)).writeShut = s1.writeShut ∧
      (s1.setTimeout (config.getD 30000)).forceShut = s1.forceShut) ∧
    (∀ statusCode what,
      onRequest messageId payload session = (s1, some (Thrown.cbppException statusCode what)) →
      ∃ s2, SessionJobBase.perform
          (RequestJob.perform config ST_INTERNAL_ERROR onRequest messageId payload)
          (some session) = (some s2, none) ∧
        s2.trace = s1.trace ++ [Effect.sendError messageId statusCode what,
          Effect.shutdownRead, Effect.shutdownWrite] ∧
        s2.readShut = true ∧ s2.writeShut = true ∧ s2.forceShut = s1.forceShut ∧
        s2.timeout = s1.timeout) ∧
    (∀ what,
      onRequest messageId payload session = (s1, some (Thrown.stdException what)) →
      ∃ s2, SessionJobBase.perform
          (RequestJob.perform config ST_INTERNAL_ERROR onRequest messageId payload)
          (some session) = (some s2, none) ∧
        s2.trace = s1.trace ++ [Effect.sendError messageId ST_INTERNAL_ERROR what,
          Effect.shutdownRead, Effect.shutdownWrite] ∧
        s2.readShut = true ∧ s2.writeShut = true ∧ s2.forceShut = s1.forceShut ∧
        s2.timeout = s1.timeout) ∧
    (∀ tag,
      onRequest messageId payload session = (s1, some (Thrown.other tag)) →
      ∃ s2, SessionJobBase.perform
          (RequestJob.perform config ST_INTERNAL_ERROR onRequest messageId payload)
          (some session) = (some s2, some (Thrown.other tag)) ∧
        s2.trace = s1.trace ++ [Effect.forceShutdown] ∧
        s2.forceShut = true ∧ s2.timeout = s1.timeout) := by
  refine ⟨?_, ?_, ?_, ?_⟩
  · intro h
    simp [SessionJobBase.perform, RequestJob.perform, h, Session.setTimeout]
  · intro statusCode what h
    simp [SessionJobBase.perform, RequestJob.perform, h, Session.sendError,
      Session.shutdownRead, Session.shutdownWrite]
  · intro what h
    simp [SessionJobBase.perform, RequestJob.perform, h, Session.sendError,
      Session.shutdownRead, Session.shutdownWrite]
  · intro tag h
    simp [SessionJobBase.perform, RequestJob.perform, h, Session.forceShutdown]

/-- C3 witness: the four cases of `requestJob_perform_cases` at message 7 on a fresh
session, with callbacks that return, throw a `Cbpp::Exception`, throw a `std::exception`
and throw something else. -/
theorem requestJob_perform_cases_witness :
    (SessionJobBase.perform (RequestJob.perform (some 5000) (-1) (fun _ _ s => (s, none)) 7 [1, 2])
        (some ⟨false, false, false, 0, []⟩)
        = (some (Session.setTimeout ⟨false, false, false, 0, []⟩ ((some 5000).getD 30000)), none)) ∧
    (∃ s2, SessionJobBase.perform
        (RequestJob.perform none (-1) (fun _ _ s => (s, some (Thrown.cbppException 3 "bad"))) 7 [])
        (some ⟨false, false, false, 0, []⟩) = (some s2, none) ∧
      s2.trace = [] ++ [Effect.sendError 7 3 "bad", Effect.shutdownRead, Effect.shutdownWrite]) ∧
    (∃ s2, SessionJobBase.perform
        (RequestJob.perform none (-1) (fun _ _ s => (s, some (Thrown.stdException "oops"))) 7 [])
        (some ⟨false, false, false, 0, []⟩) = (some s2, none) ∧
      s2.trace = [] ++ [Effect.sendError 7 (-1) "oops", Effect.shutdownRead,
        Effect.shutdownWrite]) ∧
    (∃ s2, SessionJobBase.perform
        (RequestJob.perform none (-1) (fun _ _ s => (s, some (Thrown.other 9))) 7 [])
        (some ⟨false, false, false, 0, []⟩) = (some s2, some (Thrown.other 9)) ∧
      s2.trace = [] ++ [Effect.forceShutdown]) :=
  ⟨((requestJob_perform_cases (some 5000) (-1) (fun _ _ s => (s, none)) 7 [1, 2]
      ⟨false, false, false, 0, []⟩ ⟨false, false, false, 0, []⟩).1 rfl).1,
   (((requestJob_perform_cases none (-1) (fun _ _ s => (s, some (Thrown.cbppException 3 "bad")))
      7 [] ⟨false, false, false, 0, []⟩ ⟨false, false, false, 0, []⟩).2.1 3 "bad" rfl).imp
      fun _ h => ⟨h.1, h.2.1⟩),
   (((requestJob_perform_cases none (-1) (fun _ _ s => (s, some (Thrown.stdException "oops")))
      7 [] ⟨false, false, false, 0, []⟩ ⟨false, false, false, 0, []⟩).2.2.1 "oops" rfl).imp
      fun _ h => ⟨h.1, h.2.1⟩),
   (((requestJob_perform_cases none (-1) (fun _ _ s => (s, some (Thrown.other 9)))
      7 [] ⟨false, false, false, 0, []⟩ ⟨false, false, false, 0, []⟩).2.2.2 9 rfl).imp
      fun _ h => ⟨h.1, h.2.1⟩)⟩

/-- C3 counterexample: `onRequest` throws a value that is neither `TryAgainLater` nor a
protocol error (it is no `std::exception`); the job sends no error reply for message 7 at
all, force-shuts the session and throws the value on. -/
theorem requestJob_other_sends_no_error :
    Thrown.other 9 ≠ Thrown.tryAgainLater ∧
    (∀ statusCode what, Thrown.other 9 ≠ Thrown.cbppException statusCode what) ∧
    SessionJobBase.perform
        (RequestJob.perform none (-1) (fun _ _ s => (s, some (Thrown.other 9))) 7 [])
        (some ⟨false, false, false, 0, []⟩)
      = (some ⟨true, true, true, 0, [Effect.forceShutdown]⟩, some (Thrown.other 9)) ∧
    ¬ ∃ statusCode reason,
      Effect.sendError 7 statusCode reason ∈ [Effect.forceShutdown] := by
  refine ⟨by decide, fun _ _ => by simp, rfl, ?_⟩
  rintro ⟨statusCode, reason, h⟩
  simp at h

/-- C4: the job wrappers of session and client on a live connection.  When the body
throws `TryAgainLater`, the wrapper throws it on and leaves the connection as the body left
it.  When the body throws anything else, the wrapper force-shuts the connection (and does
nothing else to it) and throws the same value on. -/
theorem jobBase_perform_rethrow (sbody : Session → Session × Option Thrown)
    (cbody : Client → Client × Option Thrown) (session s1 : Session) (client c1 : Client)
    (e : Thrown) :
    (sbody session = (s1, some Thrown.tryAgainLater) →
      SessionJobBase.perform sbody (some session) = (some s1, some Thrown.tryAgainLater)) ∧
    (e ≠ Thrown.tryAgainLater → sbody session = (s1, some e) →
      SessionJobBase.perform sbody (some session) = (some s1.forceShutdown, some e) ∧
      s1.forceShutdown.forceShut = true ∧
      s1.forceShutdown.trace = s1.trace ++ [Effect.forceShutdown]) ∧
    (cbody client = (c1, some Thrown.tryAgainLater) →
      SyncJobBase.perform cbody (some client) = (some c1, some Thrown.tryAgainLater)) ∧
    (e ≠ Thrown.tryAgainLater → cbody client = (c1, some e) →
      SyncJobBase.perform cbody (some client) = (some c1.forceShutdown, some e) ∧
      c1.forceShutdown.forceShut = true ∧
      c1.forceShutdown.trace = c1.trace ++ [Effect.forceShutdown]) := by
  refine ⟨?_, ?_, ?_, ?_⟩
  · intro h
    simp [SessionJobBase.perform, h]
  · intro he h
    cases e with
    | tryAgainLater => exact absurd rfl he
    | cbppException c w => simp [SessionJobBase.perform, h, Session.forceShutdown]
    | stdException w => simp [SessionJobBase.perform, h, Session.forceShutdown]
    | other t => simp [SessionJobBase.perform, h, Session.forceShutdown]
  · intro h
    simp [SyncJobBase.perform, h]
  · intro he h
    cases e with
    | tryAgainLater => exact absurd rfl he
    | cbppException c w => simp [SyncJobBase.perform, h, Client.forceShutdown]
    | stdException w => simp [SyncJobBase.perform, h, Client.forceShutdown]
    | other t => simp [SyncJobBase.perform, h, Client.forceShutdown]

/-- C4 witness: bodies that throw `TryAgainLater`, and bodies that throw a
`std::exception`, on a fresh session and a fresh client. -/
theorem jobBase_perform_rethrow_witness :
    (SessionJobBase.perform (fun s => (s, some Thrown.tryAgainLater))
        (some ⟨false, false, false, 0, []⟩)
      = (some ⟨false, false, false, 0, []⟩, some Thrown.tryAgainLater)) ∧
    (SessionJobBase.perform (fun s => (s, some (Thrown.stdException "oops")))
        (some ⟨false, false, false, 0, []⟩)
      = (some (Session.forceShutdown ⟨false, false, false, 0, []⟩),
          some (Thrown.stdException "oops"))) ∧
    (SyncJobBase.perform (fun c => (c, some Thrown.tryAgainLater)) (some (Client.new 15000))
      = (some (Client.new 15000), some Thrown.tryAgainLater)) ∧
    (SyncJobBase.perform (fun c => (c, some (Thrown.stdException "oops")))
        (some (Client.new 15000))
      = (some (Client.new 15000).forceShutdown, some (Thrown.stdException "oops"))) :=
  ⟨(jobBase_perform_rethrow (fun s => (s, some Thrown.tryAgainLater))
      (fun c => (c, some Thrown.tryAgainLater)) ⟨false, false, false, 0, []⟩
      ⟨false, false, false, 0, []⟩ (Client.new 15000) (Client.new 15000)
      Thrown.tryAgainLater).1 rfl,
   ((jobBase_perform_rethrow (fun s => (s, some (Thrown.stdException "oops")))
      (fun c => (c, some (Thrown.stdException "oops"))) ⟨false, false, false, 0, []⟩
      ⟨false, false, false, 0, []⟩ (Client.new 15000) (Client.new 15000)
      (Thrown.stdException "oops")).2.1 (by decide) rfl).1,
   (jobBase_perform_rethrow (fun s => (s, some Thrown.tryAgainLater))
      (fun c => (c, some Thrown.tryAgainLater)) ⟨false, false, false, 0, []⟩
      ⟨false, false, false, 0, []⟩ (Client.new 15000) (Client.new 15000)
      Thrown.tryAgainLater).2.2.1 rfl,
   ((jobBase_perform_rethrow (fun s => (s, some (Thrown.stdException "oops")))
      (fun c => (c, some (Thrown.stdException "oops"))) ⟨false, false, false, 0, []⟩
      ⟨false, false, false, 0, []⟩ (Client.new 15000) (Client.new 15000)
      (Thrown.stdException "oops")).2.2.2 (by decide) rfl).1⟩

/-- C5: `Session::onControl`.  `CTL_HEARTBEAT` is code 0 and leaves the session as it is:
nothing is sent, no flag changes.  Any other code makes exactly three calls, in this order:
the control message is sent back with the same code and parameters, read is shut, write is
shut. -/
theorem session_onControl_cases (s : Session) (controlCode : Nat) (intParam : Int)
    (strParam : String) :
    CTL_HEARTBEAT = 0 ∧
    (controlCode = CTL_HEARTBEAT → s.onControl controlCode intParam strParam = s) ∧
    (controlCode ≠ CTL_HEARTBEAT →
      (s.onControl controlCode intParam strParam).trace =
        s.trace ++ [Effect.sendControl controlCode intParam strParam, Effect.shutdownRead,
          Effect.shutdownWrite] ∧
      (s.onControl controlCode intParam strParam).readShut = true ∧
      (s.onControl controlCode intParam strParam).writeShut = true ∧
      (s.onControl controlCode intParam strParam).forceShut = s.forceShut ∧
      (s.onControl controlCode intParam strParam).timeout = s.timeout) := by
  refine ⟨rfl, ?_, ?_⟩
  · intro h
    simp [Session.onControl, h]
  · intro h
    simp [Session.onControl, h, Session.sendControl, Session.shutdownRead,
      Session.shutdownWrite]

/-- C5 witness: a heartbeat and the unknown code 5 on a fresh session. -/
theorem session_onControl_cases_witness :
    Session.onControl ⟨false, false, false, 0, []⟩ 0 12 "x" = ⟨false, false, false, 0, []⟩ ∧
    (Session.onControl ⟨false, false, false, 0, []⟩ 5 12 "x").trace =
      [] ++ [Effect.sendControl 5 12 "x", Effect.shutdownRead, Effect.shutdownWrite] :=
  ⟨(session_onControl_cases ⟨false, false, false, 0, []⟩ 0 12 "x").2.1 rfl,
   ((session_onControl_cases ⟨false, false, false, 0, []⟩ 5 12 "x").2.2 (by decide)).1⟩

/-! ### Servlet dispatch -/

theorem char_eq_of_toNat_eq {a b : Char} (h : (a.toNat : Int) - b.toNat = 0) : a = b := by
  have h1 : a.toNat = b.toNat := by omega
  apply Char.ext
  apply UInt32.ext
  exact h1

theorem strcmp_cstr (a b : List Char) : strcmp a b = strcmp (cstr a) b := by
  induction a generalizing b with
  | nil => rfl
  | cons x xs ih =>
    by_cases hx : x = NUL
    · subst hx
      cases b with
      | nil => simp [cstr, strcmp]
      | cons y ys =>
        by_cases hy : NUL = y
        · subst hy; simp [cstr, strcmp]
        · simp [cstr, strcmp, hy]
    · have hc : cstr (x :: xs) = x :: cstr xs := by simp [cstr, hx]
      rw [hc]
      cases b with
      | nil => simp [strcmp]
      | cons y ys =>
        simp only [strcmp]
        rw [ih ys]

theorem cstr_eq_of_strcmp_eq_zero (a b : List Char) (h : strcmp a b = 0) :
    cstr a = cstr b := by
  induction a generalizing b with
  | nil =>
    cases b with
    | nil => rfl
    | cons y ys =>
      have hy : NUL = y := char_eq_of_toNat_eq (by simpa [strcmp] using h)
      subst hy
      simp [cstr]
  | cons x xs ih =>
    cases b with
    | nil =>
      have hx : x = NUL := char_eq_of_toNat_eq (by simpa [strcmp] using h)
      subst hx
      simp [cstr]
    | cons y ys =>
      by_cases hxy : x = y
      · subst hxy
        by_cases hx : x = NUL
        · subst hx
          simp [cstr]
        · have h2 : strcmp xs ys = 0 := by simpa [strcmp, hx] using h
          have hc : ∀ l, cstr (x :: l) = x :: cstr l := by
            intro l
            simp [cstr, hx]
          rw [hc, hc, ih ys h2]
      · exact absurd (char_eq_of_toNat_eq (by simpa [strcmp, hxy] using h)) hxy

theorem searchLoop_cstr (key : List Char) (fuel lower upper : Nat) :
    searchLoop key fuel lower upper = searchLoop (cstr key) fuel lower upper := by
  induction fuel generalizing lower upper with
  | zero => rfl
  | succ n ih =>
    simp only [searchLoop]
    cases JUMP_TABLE[lower + (upper - lower) / 2]? with
    | none => rfl
    | some entry =>
      simp only []
      rw [← strcmp_cstr key entry.1, ih lower, ih]

theorem searchLoop_found (key : List Char) (entry : List Char × Handler)
    (hmem : entry ∈ JUMP_TABLE) (hkey : cstr key = entry.1) :
    searchLoop key JUMP_TABLE.length 0 JUMP_TABLE.length = some (some entry.2) := by
  rw [searchLoop_cstr, hkey]
  simp only [JUMP_TABLE, List.mem_cons, List.mem_singleton, List.not_mem_nil, or_false] at hmem
  rcases hmem with h | h | h | h | h | h | h <;> subst h <;> decide

theorem strcmp_ne_zero_of_not_mem (key : List Char)
    (hkey : ∀ entry ∈ JUMP_TABLE, cstr key ≠ entry.1) (entry : List Char × Handler)
    (hmem : entry ∈ JUMP_TABLE) : strcmp key entry.1 ≠ 0 := by
  intro h
  have h1 := cstr_eq_of_strcmp_eq_zero key entry.1 h
  have h2 : cstr entry.1 = entry.1 := by
    simp only [JUMP_TABLE, List.mem_cons, List.mem_singleton, List.not_mem_nil, or_false] at hmem
    rcases hmem with h | h | h | h | h | h | h <;> subst h <;> decide
  exact hkey entry hmem (h1.trans h2)

theorem searchLoop_not_found (key : List Char)
    (hkey : ∀ entry ∈ JUMP_TABLE, cstr key ≠ entry.1) :
    searchLoop key JUMP_TABLE.length 0 JUMP_TABLE.length = some none := by
  have h0 := strcmp_ne_zero_of_not_mem key hkey ("connections".toList, Handler.onConnections)
    (by decide)
  have h1 := strcmp_ne_zero_of_not_mem key hkey ("load_module".toList, Handler.onLoadModule)
    (by decide)
  have h2 := strcmp_ne_zero_of_not_mem key hkey ("modules".toList, Handler.onModules)
    (by decide)
  have h3 := strcmp_ne_zero_of_not_mem key hkey ("profile".toList, Handler.onProfile)
    (by decide)
  have h4 := strcmp_ne_zero_of_not_mem key hkey ("set_log_mask".toList, Handler.onSetLogMask)
    (by decide)
  have h5 := strcmp_ne_zero_of_not_mem key hkey ("shutdown".toList, Handler.onShutdown)
    (by decide)
  have h6 := strcmp_ne_zero_of_not_mem key hkey ("unload_module".toList, Handler.onUnloadModule)
    (by decide)
  simp at h0 h1 h2 h3 h4 h5 h6
  simp only [JUMP_TABLE, List.length_cons, List.length_nil, searchLoop]
  simp [h0, h1, h2, h3, h4, h5, h6]

/-- C6 (amended): `servletProc` always ends.  A verb other than GET gives 405 whatever the
URI.  For GET: a URI shorter than `cut` gives 404; otherwise the suffix at `cut` is read as
a C string (up to its first NUL, if it has one) and, when it is none of the seven names of
the jump table, the result is 404, and when it is one of them, the handler registered for
that name is called.  The names of the table are exactly the seven, in strictly ascending
byte order. -/
theorem servletProc_dispatch (HTTP_GET verb : Nat) (uri : List Char) (cut : Nat) :
    (verb ≠ HTTP_GET →
      servletProc HTTP_GET verb uri cut = some (ServletResult.httpException 405)) ∧
    (verb = HTTP_GET → uri.length < cut →
      servletProc HTTP_GET verb uri cut = some (ServletResult.httpException 404)) ∧
    (verb = HTTP_GET → cut ≤ uri.length →
      (∀ entry ∈ JUMP_TABLE, cstr (uri.drop cut) ≠ entry.1) →
      servletProc HTTP_GET verb uri cut = some (ServletResult.httpException 404)) ∧
    (verb = HTTP_GET → cut ≤ uri.length →
      ∀ entry ∈ JUMP_TABLE, cstr (uri.drop cut) = entry.1 →
      servletProc HTTP_GET verb uri cut = some (ServletResult.called entry.2)) ∧
    JUMP_TABLE.map Prod.fst =
      ["connections".toList, "load_module".toList, "modules".toList, "profile".toList,
       "set_log_mask".toList, "shutdown".toList, "unload_module".toList] ∧
    (JUMP_TABLE.map Prod.fst).Pairwise (fun a b => strcmp a b < 0) ∧
    servletProc HTTP_GET verb uri cut ≠ none := by
  have hfound : verb = HTTP_GET → cut ≤ uri.length →
      ∀ entry ∈ JUMP_TABLE, cstr (uri.drop cut) = entry.1 →
      servletProc HTTP_GET verb uri cut = some (ServletResult.called entry.2) := by
    intro hv hc entry hmem hkey
    have hlen : ¬ uri.length < cut := by omega
    simp only [servletProc, hv, ne_eq, not_true_eq_false, if_false, hlen]
    rw [searchLoop_found (uri.drop cut) entry hmem hkey]
  have hnot : verb = HTTP_GET → cut ≤ uri.length →
      (∀ entry ∈ JUMP_TABLE, cstr (uri.drop cut) ≠ entry.1) →
      servletProc HTTP_GET verb uri cut = some (ServletResult.httpException 404) := by
    intro hv hc hkey
    have hlen : ¬ uri.length < cut := by omega
    simp only [servletProc, hv, ne_eq, not_true_eq_false, if_false, hlen]
    rw [searchLoop_not_found (uri.drop cut) hkey]
    rfl
  have h405 : verb ≠ HTTP_GET →
      servletProc HTTP_GET verb uri cut = some (ServletResult.httpException 405) := by
    intro hv
    simp [servletProc, hv, HTTP_METHOD_NOT_ALLOWED]
  have hshort : verb = HTTP_GET → uri.length < cut →
      servletProc HTTP_GET verb uri cut = some (ServletResult.httpException 404) := by
    intro hv hc
    simp [servletProc, hv, hc, HTTP_NOT_FOUND]
  refine ⟨h405, hshort, hnot, hfound, by decide, by decide, ?_⟩
  by_cases hv : verb = HTTP_GET
  · by_cases hc : uri.length < cut
    · simp [hshort hv hc]
    · have hc2 : cut ≤ uri.length := by omega
      by_cases hex : ∃ entry ∈ JUMP_TABLE, cstr (uri.drop cut) = entry.1
      · obtain ⟨entry, hmem, hkey⟩ := hex
        simp [hfound hv hc2 entry hmem hkey]
      · have hall : ∀ entry ∈ JUMP_TABLE, cstr (uri.drop cut) ≠ entry.1 :=
          fun entry hmem hkey => hex ⟨entry, hmem, hkey⟩
        simp [hnot hv hc2 hall]
  · simp [h405 hv]

/-- C6 witness: with prefix length 5, a POST gives 405; a GET of `/sy` gives 404; a GET of
`/sys/module` gives 404; a GET of `/sys/modules` calls `onModules`. -/
theorem servletProc_dispatch_witness :
    servletProc 0 1 "/sys/modules".toList 5 = some (ServletResult.httpException 405) ∧
    servletProc 0 0 "/sy".toList 5 = some (ServletResult.httpException 404) ∧
    servletProc 0 0 "/sys/module".toList 5 = some (ServletResult.httpException 404) ∧
    servletProc 0 0 "/sys/modules".toList 5 = some (ServletResult.called Handler.onModules) :=
  ⟨(servletProc_dispatch 0 1 "/sys/modules".toList 5).1 (by decide),
   (servletProc_dispatch 0 0 "/sy".toList 5).2.1 rfl (by decide),
   (servletProc_dispatch 0 0 "/sys/module".toList 5).2.2.1 rfl (by decide) (by decide),
   (servletProc_dispatch 0 0 "/sys/modules".toList 5).2.2.2.1 rfl (by decide)
     ("modules".toList, Handler.onModules) (by decide) (by decide)⟩

/-- C6 counterexample: a GET of `/sys/modules` followed by a NUL and `x`, with prefix
length 5.  The suffix after the prefix is none of the seven names, and still the request is
not answered by 404: `strcmp` stops at the NUL and `onModules` is called. -/
theorem servletProc_nul_suffix_dispatched :
    (∀ entry ∈ JUMP_TABLE, ("/sys/modules".toList ++ [NUL, 'x']).drop 5 ≠ entry.1) ∧
    5 ≤ ("/sys/modules".toList ++ [NUL, 'x']).length ∧
    servletProc 0 0 ("/sys/modules".toList ++ [NUL, 'x']) 5
      = some (ServletResult.called Handler.onModules) ∧
    servletProc 0 0 ("/sys/modules".toList ++ [NUL, 'x']) 5
      ≠ some (ServletResult.httpException 404) := by
  refine ⟨by decide, by decide, by decide, by decide⟩

/-! ### Module manager -/

theorem findHandle_append_new (g : List ModuleMapElement) (e : ModuleMapElement)
    (h : ModuleMap.insert g e = some (g ++ [e])) :
    ModuleMap.findHandle (g ++ [e]) e.handle = some e := by
  have hno : ∀ x ∈ g, ¬ x.handle = e.handle := by
    intro x hx hxe
    unfold ModuleMap.insert at h
    split at h
    · exact absurd h (by simp)
    · rename_i hany
      apply hany
      exact List.any_eq_true.mpr ⟨x, hx, by simp [hxe]⟩
  unfold ModuleMap.findHandle
  rw [List.find?_append]
  have : g.find? (fun x => decide (x.handle = e.handle)) = none := by
    rw [List.find?_eq_none]
    intro x hx
    simpa using hno x hx
  simp [this]

theorem insert_eq_some (g g1 : List ModuleMapElement) (e : ModuleMapElement)
    (h : ModuleMap.insert g e = some g1) : g1 = g ++ [e] := by
  unfold ModuleMap.insert at h
  split at h
  · exact absurd h (by simp)
  · exact (Option.some.inj h).symm

/-- C7: when `load(path)` has returned the record `m` and the next call of `load(path)`
follows at once, its no-load probe giving the handle of `m`, the second call returns the
same record `m`; the registry, the reverse map and the list of init calls are as the first
call left them (only the caller holds one more reference). -/
theorem load_again_same_module (env1 env2 : DlEnv) (path : String) (s s1 : ModuleManager)
    (m : Module) (h1 : s.load env1 path = (Except.ok m, s1))
    (hprobe : env2.dlopenNoLoad path = some m.m_handle) :
    s1.load env2 path = (Except.ok m, { s1 with holders := m :: s1.holders }) ∧
    (s1.load env2 path).2.g_modules = s1.g_modules ∧
    (s1.load env2 path).2.g_modulesbyAddr = s1.g_modulesbyAddr ∧
    (s1.load env2 path).2.initCalls = s1.initCalls := by
  have hfind : ∃ it, ModuleMap.findHandle s1.g_modules m.m_handle = some it ∧ it.module = m := by
    cases hA : (env1.dlopenNoLoad path).bind (ModuleMap.findHandle s.g_modules) with
    | some it =>
      simp only [ModuleManager.load, hA, Prod.mk.injEq, Except.ok.injEq] at h1
      obtain ⟨hm, hs⟩ := h1
      subst hs
      refine ⟨it, ?_, hm⟩
      cases hp : env1.dlopenNoLoad path with
      | none => simp [hp] at hA
      | some h0 =>
        simp only [hp, Option.some_bind] at hA
        have hh : it.handle = h0 := by
          have := List.find?_some hA
          simpa using this
        subst hh
        subst hm
        exact hA
    | none =>
      cases hB : env1.dlopen path with
      | none => simp [ModuleManager.load, hA, hB] at h1
      | some handle =>
        cases hC : env1.dlsym handle with
        | none => simp [ModuleManager.load, hA, hB, hC] at h1
        | some initSym =>
          cases hD : env1.dladdr initSym with
          | none => simp [ModuleManager.load, hA, hB, hC, hD] at h1
          | some rb =>
            obtain ⟨realPath, baseAddr⟩ := rb
            cases hE : env1.init ⟨s.nextPtr, handle, realPath, baseAddr⟩ with
            | none => simp [ModuleManager.load, hA, hB, hC, hD, hE] at h1
            | some contexts =>
              cases hF : ModuleMap.insert s.g_modules
                  ⟨⟨s.nextPtr, handle, realPath, baseAddr⟩, contexts⟩ with
              | none => simp [ModuleManager.load, hA, hB, hC, hD, hE, hF] at h1
              | some g =>
                simp only [ModuleManager.load, hA, hB, hC, hD, hE, hF, Prod.mk.injEq,
                  Except.ok.injEq] at h1
                obtain ⟨hm, hs⟩ := h1
                subst hs
                have hg := insert_eq_some _ _ _ hF
                subst hg
                refine ⟨⟨m, contexts⟩, ?_, rfl⟩
                subst hm
                exact findHandle_append_new _ _ hF
  obtain ⟨it, hit, hmod⟩ := hfind
  have hload : s1.load env2 path = (Except.ok m, { s1 with holders := m :: s1.holders }) := by
    unfold ModuleManager.load
    simp [hprobe, hit, hmod]
  exact ⟨hload, by rw [hload], by rw [hload], by rw [hload]⟩

/-- C7 witness: the first `load` on the empty registry creates record 0 with handle 100;
the second `load`, whose probe finds handle 100, returns record 0 again. -/
theorem load_again_same_module_witness :
    ModuleManager.empty.load (exampleEnv none) "a.so" =
      (Except.ok ⟨0, 100, "/lib/a.so", 4096⟩,
        ⟨[⟨⟨0, 100, "/lib/a.so", 4096⟩, []⟩], [(4096, 0)], [⟨0, 100, "/lib/a.so", 4096⟩], 1,
          [⟨0, 100, "/lib/a.so", 4096⟩]⟩) ∧
    ModuleManager.load (exampleEnv (some 100)) "a.so"
        ⟨[⟨⟨0, 100, "/lib/a.so", 4096⟩, []⟩], [(4096, 0)], [⟨0, 100, "/lib/a.so", 4096⟩], 1,
          [⟨0, 100, "/lib/a.so", 4096⟩]⟩ =
      (Except.ok ⟨0, 100, "/lib/a.so", 4096⟩,
        ⟨[⟨⟨0, 100, "/lib/a.so", 4096⟩, []⟩], [(4096, 0)],
          [⟨0, 100, "/lib/a.so", 4096⟩, ⟨0, 100, "/lib/a.so", 4096⟩], 1,
          [⟨0, 100, "/lib/a.so", 4096⟩]⟩) :=
  ⟨rfl, (load_again_same_module (exampleEnv none) (exampleEnv (some 100)) "a.so"
      ModuleManager.empty
      ⟨[⟨⟨0, 100, "/lib/a.so", 4096⟩, []⟩], [(4096, 0)], [⟨0, 100, "/lib/a.so", 4096⟩], 1,
        [⟨0, 100, "/lib/a.so", 4096⟩]⟩
      ⟨0, 100, "/lib/a.so", 4096⟩ rfl rfl).1⟩

theorem dropped_g_modules (s : ModuleManager) (m : Module) :
    (s.dropped m).g_modules = s.g_modules := by
  unfold ModuleManager.dropped ModuleManager.destroy
  split <;> rfl

theorem dropped_holders (s : ModuleManager) (m : Module) :
    (s.dropped m).holders = s.holders := by
  unfold ModuleManager.dropped ModuleManager.destroy
  split <;> rfl

theorem foldl_dropped_g_modules (l : List ModuleMapElement) (s : ModuleManager) :
    (l.foldl (fun acc x => acc.dropped x.module) s).g_modules = s.g_modules := by
  induction l generalizing s with
  | nil => rfl
  | cons a t ih => rw [List.foldl_cons, ih, dropped_g_modules]

theorem foldl_dropped_holders (l : List ModuleMapElement) (s : ModuleManager) :
    (l.foldl (fun acc x => acc.dropped x.module) s).holders = s.holders := by
  induction l generalizing s with
  | nil => rfl
  | cons a t ih => rw [List.foldl_cons, ih, dropped_holders]

theorem release_g_modules (s : ModuleManager) (m : Module) :
    (s.release m).g_modules = s.g_modules := by
  unfold ModuleManager.release
  split
  · rfl
  · rw [dropped_g_modules]

theorem unloadBy_g_modules (hasKey : ModuleMapElement → Bool) (s : ModuleManager) :
    (s.unloadBy hasKey).2.g_modules = s.g_modules.filter fun x => ¬ hasKey x := by
  simp only [ModuleManager.unloadBy, ModuleMap.erase, foldl_dropped_g_modules]

theorem stopClear_g_modules (s : ModuleManager) : s.stopClear.2.g_modules = [] := by
  simp only [ModuleManager.stopClear, foldl_dropped_g_modules]

theorem load_g_modules (env : DlEnv) (path : String) (s : ModuleManager) :
    (s.load env path).2.g_modules = s.g_modules ∨
    ∃ e, ModuleMap.insert s.g_modules e = some (s.load env path).2.g_modules := by
  unfold ModuleManager.load
  split
  · exact Or.inl rfl
  · split
    · exact Or.inl rfl
    · split
      · exact Or.inl rfl
      · split
        · exact Or.inl rfl
        · simp only []
          split
          · exact Or.inl rfl
          · split
            · exact Or.inl rfl
            · rename_i g hg
              exact Or.inr ⟨_, hg⟩

theorem insert_pairwise (g g1 : List ModuleMapElement) (e : ModuleMapElement)
    (hg : g.Pairwise fun a b =>
      a.module.ptr ≠ b.module.ptr ∧ a.handle ≠ b.handle ∧ a.baseAddr ≠ b.baseAddr)
    (h : ModuleMap.insert g e = some g1) :
    g1.Pairwise fun a b =>
      a.module.ptr ≠ b.module.ptr ∧ a.handle ≠ b.handle ∧ a.baseAddr ≠ b.baseAddr := by
  unfold ModuleMap.insert at h
  split at h
  · exact absurd h (by simp)
  · rename_i hany
    have hg1 : g1 = g ++ [e] := (Option.some.inj h).symm
    subst hg1
    rw [List.pairwise_append]
    refine ⟨hg, List.pairwise_singleton _ _, ?_⟩
    intro a ha b hb
    have hb2 : b = e := by simpa using hb
    subst hb2
    have hnot : ¬ (a.module.ptr = b.module.ptr ∨ a.handle = b.handle ∨
        a.baseAddr = b.baseAddr) := by
      intro hor
      apply hany
      exact List.any_eq_true.mpr ⟨a, ha, by simpa using hor⟩
    exact ⟨fun h1 => hnot (Or.inl h1), fun h2 => hnot (Or.inr (Or.inl h2)),
      fun h3 => hnot (Or.inr (Or.inr h3))⟩

theorem step_pairwise (s : ModuleManager) (a : Action)
    (hg : s.g_modules.Pairwise fun a b =>
      a.module.ptr ≠ b.module.ptr ∧ a.handle ≠ b.handle ∧ a.baseAddr ≠ b.baseAddr) :
    (s.step a).g_modules.Pairwise fun a b =>
      a.module.ptr ≠ b.module.ptr ∧ a.handle ≠ b.handle ∧ a.baseAddr ≠ b.baseAddr := by
  cases a with
  | load env path =>
    simp only [ModuleManager.step]
    rcases load_g_modules env path s with h | ⟨e, he⟩
    · rw [h]; exact hg
    · exact insert_pairwise _ _ e hg he
  | unloadModule module =>
    simp only [ModuleManager.step, ModuleManager.unloadModule, unloadBy_g_modules]
    exact hg.filter _
  | unloadRealPath realPath =>
    simp only [ModuleManager.step, ModuleManager.unloadRealPath, unloadBy_g_modules]
    exact hg.filter _
  | unloadBaseAddr baseAddr =>
    simp only [ModuleManager.step, ModuleManager.unloadBaseAddr, unloadBy_g_modules]
    exact hg.filter _
  | stop =>
    simp only [ModuleManager.step, stopClear_g_modules]
    exact List.Pairwise.nil
  | release module =>
    simp only [ModuleManager.step, release_g_modules]
    exact hg

theorem foldl_step_pairwise (actions : List Action) (s : ModuleManager)
    (hg : s.g_modules.Pairwise fun a b =>
      a.module.ptr ≠ b.module.ptr ∧ a.handle ≠ b.handle ∧ a.baseAddr ≠ b.baseAddr) :
    (actions.foldl ModuleManager.step s).g_modules.Pairwise fun a b =>
      a.module.ptr ≠ b.module.ptr ∧ a.handle ≠ b.handle ∧ a.baseAddr ≠ b.baseAddr := by
  induction actions generalizing s with
  | nil => exact hg
  | cons a t ih => exact ih (s.step a) (step_pairwise s a hg)

/-- C8 (amended): in every state reached from the empty registry by load, unload, stop and
release steps, any two different elements of the registry differ in their record, in their
load handle and in their base address.  The real path is not a unique key: there is a run
after which two registered records have the same real path. -/
theorem registry_keys_unique (actions : List Action) :
    ((ModuleManager.run actions).g_modules.Pairwise fun a b =>
      a.module.ptr ≠ b.module.ptr ∧ a.handle ≠ b.handle ∧ a.baseAddr ≠ b.baseAddr) ∧
    ∃ env1 env2 a b, a ∈ (ModuleManager.run [Action.load env1 "a.so",
        Action.load env2 "b.so"]).g_modules ∧
      b ∈ (ModuleManager.run [Action.load env1 "a.so", Action.load env2 "b.so"]).g_modules ∧
      a ≠ b ∧ a.realPath = b.realPath := by
  refine ⟨foldl_step_pairwise actions ModuleManager.empty List.Pairwise.nil, ?_⟩
  refine ⟨exampleEnv none,
    { exampleEnv none with dlopen := fun _ => some 200, dladdr := fun _ => some ("/lib/a.so", 8192) },
    ⟨⟨0, 100, "/lib/a.so", 4096⟩, []⟩, ⟨⟨1, 200, "/lib/a.so", 8192⟩, []⟩, ?_, ?_, ?_, ?_⟩
  · decide
  · decide
  · decide
  · rfl

/-- C8 counterexample: load a library, unload its record while the caller still holds it,
and load the library again (the probe finds it mapped, the registry does not know its
handle any more).  Records 0 and 1 are then both alive, one held by the caller and one
registered, and they have the same load handle and the same base address. -/
theorem live_modules_share_handle_and_base :
    (⟨0, 100, "/lib/a.so", 4096⟩ : Module) ∈ (ModuleManager.run
      [Action.load (exampleEnv none) "a.so", Action.unloadModule ⟨0, 100, "/lib/a.so", 4096⟩,
       Action.load (exampleEnv (some 100)) "a.so"]).liveModules ∧
    (⟨1, 100, "/lib/a.so", 4096⟩ : Module) ∈ (ModuleManager.run
      [Action.load (exampleEnv none) "a.so", Action.unloadModule ⟨0, 100, "/lib/a.so", 4096⟩,
       Action.load (exampleEnv (some 100)) "a.so"]).liveModules ∧
    (ModuleManager.run
      [Action.load (exampleEnv none) "a.so", Action.unloadModule ⟨0, 100, "/lib/a.so", 4096⟩,
       Action.load (exampleEnv (some 100)) "a.so"]).alive ⟨0, 100, "/lib/a.so", 4096⟩ = true ∧
    (ModuleManager.run
      [Action.load (exampleEnv none) "a.so", Action.unloadModule ⟨0, 100, "/lib/a.so", 4096⟩,
       Action.load (exampleEnv (some 100)) "a.so"]).alive ⟨1, 100, "/lib/a.so", 4096⟩ = true ∧
    (⟨0, 100, "/lib/a.so", 4096⟩ : Module).ptr ≠ (⟨1, 100, "/lib/a.so", 4096⟩ : Module).ptr ∧
    (⟨0, 100, "/lib/a.so", 4096⟩ : Module).m_handle
      = (⟨1, 100, "/lib/a.so", 4096⟩ : Module).m_handle ∧
    (⟨0, 100, "/lib/a.so", 4096⟩ : Module).m_baseAddr
      = (⟨1, 100, "/lib/a.so", 4096⟩ : Module).m_baseAddr := by
  refine ⟨by decide, by decide, by decide, by decide, by decide, rfl, rfl⟩

theorem unloadBy_result (hasKey : ModuleMapElement → Bool) (s : ModuleManager) :
    ((s.unloadBy hasKey).1 = true ↔ ∃ x ∈ s.g_modules, hasKey x = true) := by
  simp only [ModuleManager.unloadBy, ModuleMap.erase, decide_eq_true_eq, gt_iff_lt,
    List.length_pos_iff_exists_mem, List.mem_filter]

theorem unloadBy_spec (hasKey : ModuleMapElement → Bool) (s : ModuleManager) :
    ((s.unloadBy hasKey).1 = true ↔ ∃ x ∈ s.g_modules, hasKey x = true) ∧
    (∀ x ∈ (s.unloadBy hasKey).2.g_modules, hasKey x = false) ∧
    (∀ x, hasKey x = false → (x ∈ (s.unloadBy hasKey).2.g_modules ↔ x ∈ s.g_modules)) ∧
    (s.unloadBy hasKey).2.g_modules.Sublist s.g_modules ∧
    ((s.unloadBy hasKey).2.unloadBy hasKey).1 = false := by
  refine ⟨unloadBy_result hasKey s, ?_, ?_, ?_, ?_⟩
  · intro x hx
    rw [unloadBy_g_modules, List.mem_filter] at hx
    simpa using hx.2
  · intro x hk
    rw [unloadBy_g_modules, List.mem_filter]
    simp [hk]
  · rw [unloadBy_g_modules]
    exact List.filter_sublist _
  · have h := unloadBy_result hasKey (s.unloadBy hasKey).2
    cases hr : ((s.unloadBy hasKey).2.unloadBy hasKey).1 with
    | false => rfl
    | true =>
      obtain ⟨x, hx, hk⟩ := h.mp hr
      rw [unloadBy_g_modules, List.mem_filter] at hx
      simp [hk] at hx

/-- C9: the three `unload` overloads, by record, by real path and by base address.  Each
returns true exactly when the registry held an element with that key; afterwards no element
of the registry has the key, the elements with another key are the same as before and in
the same order, and an immediate second `unload` with the key returns false. -/
theorem unload_erases_key (s : ModuleManager) (module : Module) (realPath : String)
    (baseAddr : Nat) :
    (((s.unloadModule module).1 = true ↔ ∃ x ∈ s.g_modules, x.module.ptr = module.ptr) ∧
      (∀ x ∈ (s.unloadModule module).2.g_modules, x.module.ptr ≠ module.ptr) ∧
      (∀ x, x.module.ptr ≠ module.ptr →
        (x ∈ (s.unloadModule module).2.g_modules ↔ x ∈ s.g_modules)) ∧
      (s.unloadModule module).2.g_modules.Sublist s.g_modules ∧
      ((s.unloadModule module).2.unloadModule module).1 = false) ∧
    (((s.unloadRealPath realPath).1 = true ↔ ∃ x ∈ s.g_modules, x.realPath = realPath) ∧
      (∀ x ∈ (s.unloadRealPath realPath).2.g_modules, x.realPath ≠ realPath) ∧
      (∀ x, x.realPath ≠ realPath →
        (x ∈ (s.unloadRealPath realPath).2.g_modules ↔ x ∈ s.g_modules)) ∧
      (s.unloadRealPath realPath).2.g_modules.Sublist s.g_modules ∧
      ((s.unloadRealPath realPath).2.unloadRealPath realPath).1 = false) ∧
    (((s.unloadBaseAddr baseAddr).1 = true ↔ ∃ x ∈ s.g_modules, x.baseAddr = baseAddr) ∧
      (∀ x ∈ (s.unloadBaseAddr baseAddr).2.g_modules, x.baseAddr ≠ baseAddr) ∧
      (∀ x, x.baseAddr ≠ baseAddr →
        (x ∈ (s.unloadBaseAddr baseAddr).2.g_modules ↔ x ∈ s.g_modules)) ∧
      (s.unloadBaseAddr baseAddr).2.g_modules.Sublist s.g_modules ∧
      ((s.unloadBaseAddr baseAddr).2.unloadBaseAddr baseAddr).1 = false) := by
  refine ⟨?_, ?_, ?_⟩
  · have h := unloadBy_spec (fun x => x.module.ptr = module.ptr) s
    simpa [ModuleManager.unloadModule] using h
  · have h := unloadBy_spec (fun x => x.realPath = realPath) s
    simpa [ModuleManager.unloadRealPath] using h
  · have h := unloadBy_spec (fun x => x.baseAddr = baseAddr) s
    simpa [ModuleManager.unloadBaseAddr] using h

/-- C9 witness: with records 0 (at `/lib/a.so`, base 4096) and 1 (at `/lib/b.so`, base
8192) registered, unloading record 1 returns true, record 0 at another key stays, and
unloading by a real path or base address that is not registered returns false. -/
theorem unload_erases_key_witness :
    (ModuleManager.unloadModule ⟨1, 200, "/lib/b.so", 8192⟩
      ⟨[⟨⟨0, 100, "/lib/a.so", 4096⟩, []⟩, ⟨⟨1, 200, "/lib/b.so", 8192⟩, []⟩],
        [(4096, 0), (8192, 1)], [], 2, []⟩).1 = true ∧
    (⟨⟨0, 100, "/lib/a.so", 4096⟩, []⟩ : ModuleMapElement) ∈
      (ModuleManager.unloadModule ⟨1, 200, "/lib/b.so", 8192⟩
        ⟨[⟨⟨0, 100, "/lib/a.so", 4096⟩, []⟩, ⟨⟨1, 200, "/lib/b.so", 8192⟩, []⟩],
          [(4096, 0), (8192, 1)], [], 2, []⟩).2.g_modules ∧
    ((ModuleManager.unloadRealPath "/lib/b.so"
      ⟨[⟨⟨0, 100, "/lib/a.so", 4096⟩, []⟩, ⟨⟨1, 200, "/lib/b.so", 8192⟩, []⟩],
        [(4096, 0), (8192, 1)], [], 2, []⟩).2.unloadRealPath "/lib/b.so").1 = false ∧
    (ModuleManager.unloadBaseAddr 4096
      ⟨[⟨⟨0, 100, "/lib/a.so", 4096⟩, []⟩, ⟨⟨1, 200, "/lib/b.so", 8192⟩, []⟩],
        [(4096, 0), (8192, 1)], [], 2, []⟩).1 = true :=
  ⟨(unload_erases_key
      ⟨[⟨⟨0, 100, "/lib/a.so", 4096⟩, []⟩, ⟨⟨1, 200, "/lib/b.so", 8192⟩, []⟩],
        [(4096, 0), (8192, 1)], [], 2, []⟩
      ⟨1, 200, "/lib/b.so", 8192⟩ "/lib/b.so" 4096).1.1.mpr
      ⟨⟨⟨1, 200, "/lib/b.so", 8192⟩, []⟩, by decide, rfl⟩,
   ((unload_erases_key
      ⟨[⟨⟨0, 100, "/lib/a.so", 4096⟩, []⟩, ⟨⟨1, 200, "/lib/b.so", 8192⟩, []⟩],
        [(4096, 0), (8192, 1)], [], 2, []⟩
      ⟨1, 200, "/lib/b.so", 8192⟩ "/lib/b.so" 4096).1.2.2.1
      ⟨⟨0, 100, "/lib/a.so", 4096⟩, []⟩ (by decide)).mpr (by decide),
   (unload_erases_key
      ⟨[⟨⟨0, 100, "/lib/a.so", 4096⟩, []⟩, ⟨⟨1, 200, "/lib/b.so", 8192⟩, []⟩],
        [(4096, 0), (8192, 1)], [], 2, []⟩
      ⟨1, 200, "/lib/b.so", 8192⟩ "/lib/b.so" 4096).2.1.2.2.2.2,
   (unload_erases_key
      ⟨[⟨⟨0, 100, "/lib/a.so", 4096⟩, []⟩, ⟨⟨1, 200, "/lib/b.so", 8192⟩, []⟩],
        [(4096, 0), (8192, 1)], [], 2, []⟩
      ⟨1, 200, "/lib/b.so", 8192⟩ "/lib/b.so" 4096).2.2.1.mpr
      ⟨⟨⟨0, 100, "/lib/a.so", 4096⟩, []⟩, by decide, rfl⟩⟩

theorem release_alive (s : ModuleManager) (r m : Module)
    (h : (s.release r).alive m = true) : s.alive m = true := by
  unfold ModuleManager.release at h
  split at h
  · exact h
  · simp only [ModuleManager.alive, dropped_g_modules, dropped_holders, Bool.or_eq_true,
      List.any_eq_true] at h ⊢
    rcases h with h | ⟨x, hx, hp⟩
    · exact Or.inl h
    · exact Or.inr ⟨x, (List.eraseP_sublist _).subset hx, hp⟩

theorem foldl_release_g_modules (l : List Module) (s : ModuleManager) :
    (l.foldl (fun acc m => acc.release m) s).g_modules = s.g_modules := by
  induction l generalizing s with
  | nil => rfl
  | cons a t ih => rw [List.foldl_cons, ih, release_g_modules]

theorem foldl_release_alive (l : List Module) (s : ModuleManager) (m : Module)
    (h : (l.foldl (fun acc m => acc.release m) s).alive m = true) : s.alive m = true := by
  induction l generalizing s with
  | nil => exact h
  | cons a t ih => exact release_alive s a m (ih (s.release a) h)

theorem stopLoop_succ (fuel : Nat) (modules : List Module) (sleeps : List (List Module))
    (s : ModuleManager) :
    ModuleManager.stopLoop (fuel + 1) modules sleeps s =
      match modules.getLast? with
      | none => some s
      | some back =>
        if s.alive back then
          match sleeps with
          | [] => none
          | released :: rest =>
            ModuleManager.stopLoop fuel modules rest
              (released.foldl (fun acc m => acc.release m) s)
        else ModuleManager.stopLoop fuel modules.dropLast sleeps s := rfl

theorem stopLoop_returns (fuel : Nat) (modules : List Module) (sleeps : List (List Module))
    (s s1 : ModuleManager) (h : ModuleManager.stopLoop fuel modules sleeps s = some s1) :
    s1.g_modules = s.g_modules ∧ (∀ m ∈ modules, s1.alive m = false) ∧
    (∀ m, s.alive m = false → s1.alive m = false) := by
  induction fuel generalizing modules sleeps s with
  | zero => exact absurd h (by intro h0; cases h0)
  | succ n ih =>
    rw [stopLoop_succ] at h
    split at h
    · rename_i hlast
      have hnil : modules = [] := List.getLast?_eq_none_iff.mp hlast
      have hs : s = s1 := Option.some.inj h
      subst hs hnil
      exact ⟨rfl, by simp, fun m hm => hm⟩
    · rename_i back hlast
      split at h
      · split at h
        · simp at h
        · rename_i released rest
          obtain ⟨hg, hdead, hmono⟩ := ih modules rest _ h
          refine ⟨by rw [hg, foldl_release_g_modules], hdead, ?_⟩
          intro m hm
          apply hmono
          cases hal : (released.foldl (fun acc m => acc.release m) s).alive m with
          | false => rfl
          | true => rw [foldl_release_alive released s m hal] at hm; exact absurd hm (by simp)
      · rename_i hback
        obtain ⟨hg, hdead, hmono⟩ := ih modules.dropLast sleeps s h
        refine ⟨hg, ?_, hmono⟩
        intro m hm
        have hsplit : modules = modules.dropLast ++ [back] := by
          have := List.dropLast_append_getLast? back
            (by simpa [Option.mem_def] using hlast)
          exact this.symm
        rw [hsplit, List.mem_append] at hm
        rcases hm with hm | hm
        · exact hdead m hm
        · have hmb : m = back := by simpa using hm
          subst hmb
          exact hmono m (by simpa using hback)

theorem stopLoop_all_expired (fuel : Nat) (modules : List Module)
    (sleeps : List (List Module)) (s : ModuleManager) (hfuel : modules.length < fuel)
    (hdead : ∀ m ∈ modules, s.alive m = false) :
    ModuleManager.stopLoop fuel modules sleeps s = some s := by
  induction fuel generalizing modules with
  | zero => omega
  | succ n ih =>
    rw [stopLoop_succ]
    split
    · rfl
    · rename_i back hlast
      have hsplit : modules = modules.dropLast ++ [back] := by
        have := List.dropLast_append_getLast? back
          (by simpa [Option.mem_def] using hlast)
        exact this.symm
      have hb : s.alive back = false := hdead back (by rw [hsplit]; simp)
      rw [if_neg (by simp [hb])]
      apply ih
      · have hlen : modules.length = modules.dropLast.length + 1 := by
          conv_lhs => rw [hsplit]
          simp
        omega
      · intro m hm
        exact hdead m (by rw [hsplit]; exact List.mem_append_left _ hm)

/-- More fuel than the lengths of `modules` and `sleeps` together makes no difference to
the waiting loop: it never stops for lack of fuel in `stop`. -/
theorem stopLoop_fuel_irrelevant (fuel : Nat) (modules : List Module)
    (sleeps : List (List Module)) (s : ModuleManager)
    (hfuel : modules.length + sleeps.length < fuel) :
    ModuleManager.stopLoop (fuel + 1) modules sleeps s =
      ModuleManager.stopLoop fuel modules sleeps s := by
  induction fuel generalizing modules sleeps s with
  | zero => omega
  | succ n ih =>
    rw [stopLoop_succ (n + 1) modules sleeps s]
    conv_rhs => rw [stopLoop_succ n modules sleeps s]
    split
    · rfl
    · rename_i back hlast
      have hlen : modules.length = modules.dropLast.length + 1 := by
        have h2 := List.dropLast_append_getLast? back
          (by simpa [Option.mem_def] using hlast)
        conv_lhs => rw [← h2]
        simp
      split
      · split
        · rfl
        · rename_i released rest
          exact ih modules rest _ (by simp only [List.length_cons] at hfuel; omega)
      · exact ih modules.dropLast sleeps s (by omega)

/-- C10: whenever `stop()` returns, the registry is empty, `snapshot()` is the empty
list, and every record that was registered when `stop()` began is no longer alive (its
weak reference has expired).  When all those records are already gone once the registry is
cleared, `stop()` does return, with the state it had right after clearing, whatever other
threads do meanwhile. -/
theorem stop_drains (sleeps : List (List Module)) (s : ModuleManager) :
    (∀ s1, s.stop sleeps = some s1 →
      s1.g_modules = [] ∧ s1.snapshot = [] ∧ ∀ x ∈ s.g_modules, s1.alive x.module = false) ∧
    ((∀ x ∈ s.g_modules, s.stopClear.2.alive x.module = false) →
      s.stop sleeps = some s.stopClear.2) := by
  constructor
  · intro s1 h
    obtain ⟨hg, hdead, _⟩ := stopLoop_returns _ _ _ _ _ h
    have hg2 : s1.g_modules = [] := by rw [hg, stopClear_g_modules]
    refine ⟨hg2, by simp [ModuleManager.snapshot, hg2], ?_⟩
    intro x hx
    exact hdead x.module (by
      simp only [ModuleManager.stopClear, List.mem_map]
      exact ⟨x, hx, rfl⟩)
  · intro hdead
    unfold ModuleManager.stop
    apply stopLoop_all_expired
    · omega
    · intro m hm
      simp only [ModuleManager.stopClear, List.mem_map] at hm
      obtain ⟨x, hx, hxm⟩ := hm
      subst hxm
      exact hdead x hx

/-- C10 witness: record 0 is registered and also held by a caller, who lets it go during
the first sleep: `stop()` returns with an empty registry and record 0 gone.  And with
record 0 registered and held by nobody, `stop()` returns without any sleep. -/
theorem stop_drains_witness :
    ((ModuleManager.stop [[⟨0, 100, "/lib/a.so", 4096⟩]]
        ⟨[⟨⟨0, 100, "/lib/a.so", 4096⟩, []⟩], [(4096, 0)], [⟨0, 100, "/lib/a.so", 4096⟩], 1,
          [⟨0, 100, "/lib/a.so", 4096⟩]⟩
        = some ⟨[], [], [], 1, [⟨0, 100, "/lib/a.so", 4096⟩]⟩) ∧
      (⟨[], [], [], 1, [⟨0, 100, "/lib/a.so", 4096⟩]⟩ : ModuleManager).g_modules = [] ∧
      (⟨[], [], [], 1, [⟨0, 100, "/lib/a.so", 4096⟩]⟩ : ModuleManager).snapshot = []) ∧
    ModuleManager.stop []
        ⟨[⟨⟨0, 100, "/lib/a.so", 4096⟩, []⟩], [(4096, 0)], [], 1,
          [⟨0, 100, "/lib/a.so", 4096⟩]⟩
      = some (ModuleManager.stopClear
        ⟨[⟨⟨0, 100, "/lib/a.so", 4096⟩, []⟩], [(4096, 0)], [], 1,
          [⟨0, 100, "/lib/a.so", 4096⟩]⟩).2 :=
  ⟨⟨by decide,
    ((stop_drains [[⟨0, 100, "/lib/a.so", 4096⟩]]
      ⟨[⟨⟨0, 100, "/lib/a.so", 4096⟩, []⟩], [(4096, 0)], [⟨0, 100, "/lib/a.so", 4096⟩], 1,
        [⟨0, 100, "/lib/a.so", 4096⟩]⟩).1
      ⟨[], [], [], 1, [⟨0, 100, "/lib/a.so", 4096⟩]⟩ (by decide)).1,
    ((stop_drains [[⟨0, 100, "/lib/a.so", 4096⟩]]
      ⟨[⟨⟨0, 100, "/lib/a.so", 4096⟩, []⟩], [(4096, 0)], [⟨0, 100, "/lib/a.so", 4096⟩], 1,
        [⟨0, 100, "/lib/a.so", 4096⟩]⟩).1
      ⟨[], [], [], 1, [⟨0, 100, "/lib/a.so", 4096⟩]⟩ (by decide)).2.1⟩,
   (stop_drains []
      ⟨[⟨⟨0, 100, "/lib/a.so", 4096⟩, []⟩], [(4096, 0)], [], 1,
        [⟨0, 100, "/lib/a.so", 4096⟩]⟩).2 (by decide)⟩

/-! ### Reverse lookup of the calling module -/

/-- C11: after `reloadRun` record 1 is registered, alive, was initialised by the manager
and has base address 4096, but the reverse map is empty: the destructor of record 0 erased
the entry for the base address that record 1 had taken over.  `assertCurrent` called from
the image at 4096 throws "Module was not loaded via ModuleManager". -/
theorem assertCurrent_fails_after_reload :
    ModuleManager.run reloadRun =
      ⟨[⟨⟨1, 100, "/lib/a.so", 4096⟩, []⟩], [], [⟨1, 100, "/lib/a.so", 4096⟩], 2,
        [⟨0, 100, "/lib/a.so", 4096⟩, ⟨1, 100, "/lib/a.so", 4096⟩]⟩ ∧
    (ModuleManager.run reloadRun).alive ⟨1, 100, "/lib/a.so", 4096⟩ = true ∧
    (⟨1, 100, "/lib/a.so", 4096⟩ : Module) ∈ (ModuleManager.run reloadRun).initCalls ∧
    (ModuleManager.run reloadRun).g_modulesbyAddr = [] ∧
    (ModuleManager.run reloadRun).assertCurrent (some 4096) =
      (Except.error "Module was not loaded via ModuleManager", ModuleManager.run reloadRun) := by
  have h : ModuleManager.run reloadRun =
      ⟨[⟨⟨1, 100, "/lib/a.so", 4096⟩, []⟩], [], [⟨1, 100, "/lib/a.so", 4096⟩], 2,
        [⟨0, 100, "/lib/a.so", 4096⟩, ⟨1, 100, "/lib/a.so", 4096⟩]⟩ := by decide
  rw [h]
  exact ⟨rfl, by decide, by decide, rfl, rfl⟩

/-! ### Promises -/

/-- C12: on a fresh `JobPromiseContainer`, `set_success(42)` makes `get()` yield 42 and
`is_satisfied()` true, and a later `set_exception` leaves `get()` at 42; but a later
`set_success(7)` stores 7 before the state is looked at, and `get()` yields 7 from then
on.  This holds whether a second `set_*` on the base class is a no-op or fails. -/
theorem promise_second_set_success_overwrites (strict : Bool) :
    ((JobPromiseContainer.new 0).set_success strict 42).1.get = Except.ok 42 ∧
    ((JobPromiseContainer.new 0).set_success strict 42).1.toJobPromise.is_satisfied = true ∧
    ((((JobPromiseContainer.new 0).set_success strict 42).1.set_exception strict
      (Thrown.stdException "late")).1).get = Except.ok 42 ∧
    ((((JobPromiseContainer.new 0).set_success strict 42).1.set_success strict 7).1).get
      = Except.ok 7 ∧
    ((((JobPromiseContainer.new 0).set_success strict 42).1.set_success strict
      7).1).toJobPromise.is_satisfied = true := by
  cases strict <;> exact ⟨rfl, rfl, rfl, rfl, rfl⟩

/-! ### Liveness of the client -/

/-- C13: a freshly constructed client has `m_lastPongTime = 2 ^ 64 - 1`, and on a client
with that value a tick of the keep alive timer never force-shuts: for every `now` and
`period` it sends one PING with integer parameter 0 and leaves the shutdown flags alone. -/
theorem fresh_client_tick_sends_ping (CTL_PING utc keepAliveInterval : Nat) (client : Client)
    (now period : Nat) :
    (Client.new keepAliveInterval).m_lastPongTime = 2 ^ 64 - 1 ∧
    (client.m_lastPongTime = 2 ^ 64 - 1 →
      keepAliveTimerProc CTL_PING utc (some client) now period =
        some (client.sendControl CTL_PING 0 (Nat.repr utc)) ∧
      (client.sendControl CTL_PING 0 (Nat.repr utc)).forceShut = client.forceShut ∧
      (client.sendControl CTL_PING 0 (Nat.repr utc)).readShut = client.readShut ∧
      (client.sendControl CTL_PING 0 (Nat.repr utc)).writeShut = client.writeShut ∧
      (client.sendControl CTL_PING 0 (Nat.repr utc)).trace =
        client.trace ++ [Effect.sendControl CTL_PING 0 (Nat.repr utc)]) := by
  refine ⟨rfl, ?_⟩
  intro h
  refine ⟨?_, rfl, rfl, rfl, rfl⟩
  have hlt : (now + 2 ^ 64 - (period * 2) % 2 ^ 64) % 2 ^ 64 < 2 ^ 64 :=
    Nat.mod_lt _ (by decide)
  simp only [keepAliveTimerProc, h]
  rw [if_neg (by omega)]

/-- C13 witness: a fresh client with interval 15000, ticked at `now = 5`. -/
theorem fresh_client_tick_sends_ping_witness :
    (Client.new 15000).m_lastPongTime = 2 ^ 64 - 1 ∧
    keepAliveTimerProc 1 77 (some (Client.new 15000)) 5 15000 =
      some ((Client.new 15000).sendControl 1 0 (Nat.repr 77)) :=
  ⟨rfl, ((fresh_client_tick_sends_ping 1 77 15000 (Client.new 15000) 5 15000).2 rfl).1⟩

/-- C14: the job `Client::onControlMessage` enqueues is an `ErrorMessageJob`.  Run at clock
1000 on a live client whose `m_lastPongTime` is 5, it ends without an exception and leaves
`m_lastPongTime` at 5, whatever the callbacks are; the job for the end of a data message,
run on the same client at the same clock, sets it to 1000. -/
theorem control_job_keeps_lastPongTime (cb : ClientCallbacks) :
    (Client.onControlMessage 2 0 "1446163200").1 = ClientJob.errorMessage 2 0 "1446163200" ∧
    ClientJob.perform cb 1000 (Client.onControlMessage 2 0 "1446163200").1
        (some ⟨15000, 5, false, false, false, []⟩)
      = (some ⟨15000, 5, false, false, false, []⟩, none) ∧
    ClientJob.perform ⟨fun _ _ c => (c, none), fun _ _ c => (c, none), fun _ c => (c, none)⟩
        1000 (Client.onDataMessageEnd 3).1 (some ⟨15000, 5, false, false, false, []⟩)
      = (some ⟨15000, 1000, false, false, false, []⟩, none) := by
  exact ⟨rfl, rfl, rfl⟩

/-- C15: a job whose connection is gone when it is performed does nothing: for every
session job (request, control, error) and every client job (data header, payload, end,
error message), with any callbacks, `perform()` on a dead connection ends without an
exception and without a connection to act on; the same holds for the two wrappers with any
body.  Callbacks that throw whenever they are called make no difference. -/
theorem job_on_dead_connection_is_dropped (config : Option Nat) (ST_INTERNAL_ERROR : Int)
    (ControlMessage_ID : Nat) (scb : SessionCallbacks) (sjob : SessionJob)
    (ccb : ClientCallbacks) (getFastMonoClock : Nat) (cjob : ClientJob)
    (sbody : Session → Session × Option Thrown) (cbody : Client → Client × Option Thrown) :
    SessionJob.perform config ST_INTERNAL_ERROR ControlMessage_ID scb sjob none = (none, none) ∧
    ClientJob.perform ccb getFastMonoClock cjob none = (none, none) ∧
    SessionJobBase.perform sbody none = (none, none) ∧
    SyncJobBase.perform cbody none = (none, none) ∧
    SessionJob.perform config ST_INTERNAL_ERROR ControlMessage_ID
      ⟨fun _ _ s => (s.forceShutdown, some (Thrown.stdException "called")),
       fun _ _ _ s => (s.forceShutdown, some (Thrown.stdException "called"))⟩ sjob none
      = (none, none) ∧
    ClientJob.perform
      ⟨fun _ _ c => (c.forceShutdown, some (Thrown.stdException "called")),
       fun _ _ c => (c.forceShutdown, some (Thrown.stdException "called")),
       fun _ c => (c.forceShutdown, some (Thrown.stdException "called"))⟩
      getFastMonoClock cjob none = (none, none) := by
  refine ⟨?_, ?_, rfl, rfl, ?_, ?_⟩
  · cases sjob <;> rfl
  · cases cjob <;> rfl
  · cases sjob <;> rfl
  · cases cjob <;> rfl

/-! ### Start of the system HTTP server -/

theorem getLast?_append_slash (path : List Char) : (path ++ ['/']).getLast? = some '/' := by
  simp

/-- C16 (amended): when `system_http_path` is not set, `SystemHttpServer::start`
registers the servlet at `~/sys/` (the default `~/sys` of the code with a slash appended)
and passes 6 as the prefix length.  For every setting the registered path ends in a slash
and the prefix length passed to `servletProc` is the length of the registered path. -/
theorem start_registers_default_path (system_http_path : Option (List Char)) :
    SystemHttpServer.start none = ("~/sys/".toList, 6) ∧
    (SystemHttpServer.start system_http_path).2
      = (SystemHttpServer.start system_http_path).1.length ∧
    (SystemHttpServer.start system_http_path).1.getLast? = some '/' := by
  refine ⟨by decide, rfl, ?_⟩
  simp only [SystemHttpServer.start]
  split
  · exact getLast?_append_slash _
  · rename_i h
    by_contra hne
    exact h (Or.inr hne)

/-- C16 counterexample: with `system_http_path` not set, the path the servlet is
registered at is not `/sys/`; it begins with a tilde. -/
theorem start_default_path_is_not_sys :
    (SystemHttpServer.start none).1 ≠ "/sys/".toList ∧
    (SystemHttpServer.start none).1 = "~/sys/".toList ∧
    (SystemHttpServer.start none).2 ≠ "/sys/".toList.length := by
  decide

end Poseidon
